import Mathlib

/-
Verification development for the cloud/local synchronization and
transfer-planning engine of the dashboard repository.

The Python source is embedded shallowly:
  * bag and file names are lists of characters (`BagName`);
  * Python dicts are association lists looked up with `dlookup`
    (first binding wins; the Python originals have unique keys);
  * file sizes and counts are natural numbers (they originate from
    `blob.size` and `stat().st_size`, which are non-negative);
  * stateful code (cache refresh, transfer execution) is embedded as
    explicit state passing, with I/O outcomes supplied as oracle
    arguments (`Except`-valued listing results, per-file download
    outcomes);
  * wall-clock durations and timestamps are elided.
-/

set_option autoImplicit false

namespace Dashboard

/-- Bag names and translated file names, as character lists so that the
prefix manipulation of `CoordinatePathBuilder` can be reasoned about
character by character. -/
abbrev BagName := List Char

/-- Dictionary lookup on an association list: the embedding of a Python
`dict[k]` / `dict.get(k)` access (keys are unique in the originals, so
first-binding-wins agrees with Python). -/
def dlookup {α β : Type} [DecidableEq α] (k : α) : List (α × β) → Option β
  | [] => none
  | (a, b) :: rest => if a = k then some b else dlookup k rest

/-- Set equality of two key lists, the embedding of Python
`set(xs) == set(ys)`. -/
def listSetEqv {α : Type} [DecidableEq α] (xs ys : List α) : Bool :=
  xs.all (fun x => decide (x ∈ ys)) && ys.all (fun y => decide (y ∈ xs))

-- ============================================================================
-- CoordinatePathBuilder: bag-name translation (src/services/core/coordinate_path_builder.py)
-- ============================================================================

/-- Embedding of Python `s.replace(old, new, 1)` for a non-empty `old`:
replace the leftmost occurrence of `old` in `s` by `new`. -/
def replaceFirst (old new : List Char) : List Char → List Char
  | [] => []
  | c :: rest =>
    if old.isPrefixOf (c :: rest) then new ++ (c :: rest).drop old.length
    else c :: replaceFirst old new rest

/-- `CoordinatePathBuilder.translate_bag_name_cloud_to_local`: a cloud
name starting with an underscore gains the literal prefix `rosbag`;
anything else is logged and returned unchanged. -/
def translate_bag_name_cloud_to_local (cloud_bag_name : BagName) : BagName :=
  if ("_".data).isPrefixOf cloud_bag_name then "rosbag".data ++ cloud_bag_name
  else cloud_bag_name

/-- `CoordinatePathBuilder.translate_bag_name_local_to_cloud`: a local
name starting with `rosbag_` has that first occurrence replaced by `_`;
anything else is logged and returned unchanged. -/
def translate_bag_name_local_to_cloud (local_bag_name : BagName) : BagName :=
  if ("rosbag_".data).isPrefixOf local_bag_name then
    replaceFirst ("rosbag_".data) ("_".data) local_bag_name
  else local_bag_name

-- ============================================================================
-- Data model (src/models/core.py, src/models/state.py)
-- ============================================================================

/-- `RunCoordinate` (src/models/core.py): the 6-part hierarchical key. -/
structure RunCoordinate where
  cid : String
  regionid : String
  fieldid : String
  twid : String
  lbid : String
  timestamp : String
deriving DecidableEq, Repr

/-- `CloudRawStatus` (src/models/state.py). The Python field `exists` is a
Lean keyword and is embedded as `exists_`. -/
structure CloudRawStatus where
  exists_ : Bool
  bag_count : Nat
  bag_names : List BagName
  bag_sizes : List (BagName × Nat)
  total_size : Nat
deriving DecidableEq

/-- `LocalRawStatus` (src/models/state.py). -/
structure LocalRawStatus where
  downloaded : Bool
  bag_count : Nat
  bag_names : List BagName
  bag_sizes : List (BagName × Nat)
  total_size : Nat
deriving DecidableEq

/-- One entry of a `bag_samples` dict. The local scanner stores only the
two counts; the cloud cache entries additionally carry the file-name
lists, so those two keys are embedded as `Option` (absent = `none`).
Python dict equality between entries is then record equality. -/
structure BagSample where
  frame_count : Nat
  label_count : Nat
  frame_files : Option (List String)
  label_files : Option (List String)
deriving DecidableEq

/-- One entry of a `bag_files` dict:
`bag_name -> (frames : filename -> size, labels : filename -> size)`,
each file-type key possibly absent. -/
structure BagFilesEntry where
  frames : Option (List (String × Nat))
  labels : Option (List (String × Nat))
deriving DecidableEq

/-- `CloudMLStatus` (src/models/state.py). -/
structure CloudMLStatus where
  exists_ : Bool
  total_samples : Nat
  bag_samples : List (BagName × BagSample)
  bag_files : List (BagName × BagFilesEntry)
deriving DecidableEq

/-- `LocalMLStatus` (src/models/state.py). -/
structure LocalMLStatus where
  downloaded : Bool
  total_samples : Nat
  bag_samples : List (BagName × BagSample)
  bag_files : List (BagName × BagFilesEntry)
  file_counts : List (String × Nat)
deriving DecidableEq

-- ============================================================================
-- CloudInventoryService: cached hierarchy and coordinate queries
-- (src/services/cloud_inventory_service.py)
-- ============================================================================

/-- A Python dict keyed by strings, as an association list. -/
abbrev Dict (α : Type) := List (String × α)

/-- The leaf dict of a raw-bucket coordinate in the cache: keys `bags`
and `sizes` (`path_data.get` defaults an absent key to the empty list,
so absent keys are embedded as empty lists). -/
structure RawLeaf where
  bags : List BagName
  sizes : List Nat
deriving DecidableEq

/-- The leaf dict of an ML-bucket coordinate in the cache: key
`bag_samples` (absent embedded as the empty dict, matching
`path_data.get('bag_samples', {})`). -/
structure MLLeaf where
  bag_samples : List (BagName × BagSample)
deriving DecidableEq

/-- A bucket subtree of the cache: six dict levels
(cid/regionid/fieldid/twid/lbid/timestamp) above a leaf. -/
abbrev BucketTree (α : Type) := Dict (Dict (Dict (Dict (Dict (Dict α)))))

instance decEqDictRaw1 : DecidableEq (Dict RawLeaf) := inferInstance
instance decEqDictRaw2 : DecidableEq (Dict (Dict RawLeaf)) := inferInstance
instance decEqDictRaw3 : DecidableEq (Dict (Dict (Dict RawLeaf))) := inferInstance
instance decEqDictRaw4 : DecidableEq (Dict (Dict (Dict (Dict RawLeaf)))) := inferInstance
instance decEqDictRaw5 : DecidableEq (Dict (Dict (Dict (Dict (Dict RawLeaf))))) := inferInstance
instance decEqDictRaw6 : DecidableEq (BucketTree RawLeaf) := inferInstance
instance decEqDictML1 : DecidableEq (Dict MLLeaf) := inferInstance
instance decEqDictML2 : DecidableEq (Dict (Dict MLLeaf)) := inferInstance
instance decEqDictML3 : DecidableEq (Dict (Dict (Dict MLLeaf))) := inferInstance
instance decEqDictML4 : DecidableEq (Dict (Dict (Dict (Dict MLLeaf)))) := inferInstance
instance decEqDictML5 : DecidableEq (Dict (Dict (Dict (Dict (Dict MLLeaf))))) := inferInstance
instance decEqDictML6 : DecidableEq (BucketTree MLLeaf) := inferInstance

/-- The in-memory inventory cache: bucket-type keys `raw` and `ml`, each
possibly absent (`none` embeds a missing key). -/
structure Inventory where
  raw : Option (BucketTree RawLeaf)
  ml : Option (BucketTree MLLeaf)
deriving DecidableEq

namespace CloudInventoryService

/-- `CloudInventoryService._navigate_to_coordinate`: walk the six
components, returning `None` as soon as one is missing. -/
def navigate_to_coordinate {α : Type} (bucket_data : BucketTree α)
    (coord : RunCoordinate) : Option α :=
  (dlookup coord.cid bucket_data).bind fun m1 =>
  (dlookup coord.regionid m1).bind fun m2 =>
  (dlookup coord.fieldid m2).bind fun m3 =>
  (dlookup coord.twid m3).bind fun m4 =>
  (dlookup coord.lbid m4).bind fun m5 =>
  dlookup coord.timestamp m5

/-- Ascending lexicographic comparison of names, used to embed Python
`sorted`. -/
def bagNameLe (a b : BagName) : Bool :=
  match a, b with
  | [], _ => true
  | _ :: _, [] => false
  | c :: cs, d :: ds => if c = d then bagNameLe cs ds else decide (c < d)

def insertBag (x : BagName) : List BagName → List BagName
  | [] => [x]
  | y :: ys => if bagNameLe x y then x :: y :: ys else y :: insertBag x ys

/-- Embedding of Python `sorted` on bag-name lists (stable ascending
insertion sort; equal keys are identical strings, so any stable
ascending sort agrees with Python). -/
def pySorted (l : List BagName) : List BagName := l.foldr insertBag []

/-- The "does not exist" raw status returned for an absent coordinate. -/
def noCloudRawStatus : CloudRawStatus :=
  { exists_ := false, bag_count := 0, bag_names := [], bag_sizes := [], total_size := 0 }

/-- The "does not exist" ML status returned for an absent coordinate. -/
def noCloudMLStatus : CloudMLStatus :=
  { exists_ := false, total_samples := 0, bag_samples := [], bag_files := [] }

/-- `CloudInventoryService.get_raw_status`.

The Python constructor calls `CloudRawStatus(exists=..., bag_count=...,
bag_names=..., total_size=...)` omit the required `bag_sizes` field of
the dataclass in src/models/state.py, so at runtime every call — the
success path, the absence path and even the `except` handler — raises
`TypeError` instead of returning a status. The embedding keeps the four
supplied fields and completes `bag_sizes` with the empty dict, which is
the behaviour documented by the method's docstring and asserted by the
repository's tests (`exists=False` for a missing coordinate, no
exception). -/
def get_raw_status (inv : Inventory) (coord : RunCoordinate) : CloudRawStatus :=
  match inv.raw with
  | none => noCloudRawStatus
  | some bucket =>
    match navigate_to_coordinate bucket coord with
    | none => noCloudRawStatus
    | some path_data =>
      { exists_ := decide (0 < path_data.bags.length)
        bag_count := path_data.bags.length
        bag_names := pySorted path_data.bags
        bag_sizes := []
        total_size := path_data.sizes.sum }

/-- `CloudInventoryService.get_ml_status`. As with `get_raw_status`, the
Python constructor omits the required `bag_files` field (a `TypeError`
at runtime); the embedding completes it with the empty dict, matching
the documented and tested intent. -/
def get_ml_status (inv : Inventory) (coord : RunCoordinate) : CloudMLStatus :=
  match inv.ml with
  | none => noCloudMLStatus
  | some bucket =>
    match navigate_to_coordinate bucket coord with
    | none => noCloudMLStatus
    | some path_data =>
      let total_samples := (path_data.bag_samples.map (fun p => p.2.label_count)).sum
      { exists_ := decide (0 < total_samples)
        total_samples := total_samples
        bag_samples := path_data.bag_samples
        bag_files := [] }

-- ----------------------------------------------------------------------------
-- Cache refresh (C3)
-- ----------------------------------------------------------------------------

/-- `CloudInventoryService._scan_bucket`: a listing failure (bucket not
found, or any other exception) is caught and yields the empty dict;
the bucket data built from a successful listing is returned as is. The
listing outcome is supplied as an oracle argument. -/
def scan_bucket {γ : Type} (listing : Except Unit (Dict γ)) : Dict γ :=
  match listing with
  | .ok bucket_data => bucket_data
  | .error _ => []

/-- The mutable state of the service relevant to refreshing: the
in-memory snapshot, the persisted (on-disk) snapshot, and the stale
flag. A snapshot maps bucket-type keys to bucket data. -/
structure CloudCacheState (γ : Type) where
  mem : Option (Dict (Dict γ))
  disk : Option (Dict (Dict γ))
  is_stale : Bool

/-- `CloudInventoryService._save_cache`: nothing happens when there is
no in-memory snapshot; otherwise the snapshot is written to disk and
the stale flag cleared. `saveOk = false` embeds an I/O exception during
the write, which the method catches; the persisted snapshot is modeled
as unchanged in that case (the metadata block and timestamps are
elided). -/
def save_cache {γ : Type} (st : CloudCacheState γ) (saveOk : Bool) : CloudCacheState γ :=
  match st.mem with
  | none => st
  | some snapshot =>
    if saveOk then { st with disk := some snapshot, is_stale := false } else st

/-- `CloudInventoryService._refresh_inventory`: scan every configured
bucket (each listing outcome supplied as an oracle), build the new
snapshot from scratch, replace the in-memory snapshot wholesale, and
save it. -/
def refresh_inventory {γ : Type} (st : CloudCacheState γ)
    (listings : List (String × Except Unit (Dict γ))) (saveOk : Bool) : CloudCacheState γ :=
  let new_cache := listings.map (fun p => (p.1, scan_bucket p.2))
  save_cache { st with mem := some new_cache } saveOk

end CloudInventoryService

-- ============================================================================
-- InventoryViewService: reconciliation (src/services/pages/inventory_view_service.py)
-- ============================================================================

namespace InventoryViewService

/-- `InventoryViewService._raw_data_matches`: deep comparison of the two
raw statuses — bag count, total size, translated bag-name sets, and the
per-bag sizes of every cloud bag. `none` embeds a missing status object
(Python `None`), for which the check is `False`. -/
def raw_data_matches (cloudSt : Option CloudRawStatus) (localSt : Option LocalRawStatus) :
    Bool :=
  match cloudSt, localSt with
  | some cl, some lo =>
    decide (cl.bag_count = lo.bag_count) &&
    decide (cl.total_size = lo.total_size) &&
    listSetEqv (cl.bag_names.map translate_bag_name_cloud_to_local) lo.bag_names &&
    cl.bag_sizes.all (fun p =>
      dlookup (translate_bag_name_cloud_to_local p.1) lo.bag_sizes == some p.2)
  | _, _ => false

/-- Comparison of the files of one file type (`frames` or `labels`)
between the two sides: both absent is a pass, one absent is a failure,
both present requires equal file-name sets and equal sizes. -/
def file_type_matches (co lo : Option (List (String × Nat))) : Bool :=
  match co, lo with
  | some c, some l =>
    listSetEqv (c.map (fun p => p.1)) (l.map (fun p => p.1)) &&
    c.all (fun p => dlookup p.1 l == some p.2)
  | none, none => true
  | _, _ => false

/-- The `bag_files` part of `_ml_data_matches` for one cloud bag: the
file structures are compared only when both sides have a `bag_files`
entry for the bag; otherwise the check is skipped. -/
def bag_files_check (cloud : CloudMLStatus) (lo : LocalMLStatus) (cloud_bag : BagName) :
    Bool :=
  match dlookup cloud_bag cloud.bag_files,
        dlookup (translate_bag_name_cloud_to_local cloud_bag) lo.bag_files with
  | some cloud_files, some local_files =>
    file_type_matches cloud_files.frames local_files.frames &&
    file_type_matches cloud_files.labels local_files.labels
  | _, _ => true

/-- `InventoryViewService._ml_data_matches`: total sample counts,
translated bag-name sets, per-bag sample records, and (where both sides
list them) per-bag file names and sizes. -/
def ml_data_matches (cloudSt : Option CloudMLStatus) (localSt : Option LocalMLStatus) :
    Bool :=
  match cloudSt, localSt with
  | some cl, some lo =>
    decide (cl.total_samples = lo.total_samples) &&
    listSetEqv (cl.bag_samples.map (fun p => translate_bag_name_cloud_to_local p.1))
      (lo.bag_samples.map (fun p => p.1)) &&
    cl.bag_samples.all (fun p =>
      dlookup (translate_bag_name_cloud_to_local p.1) lo.bag_samples == some p.2) &&
    cl.bag_samples.all (fun p => bag_files_check cl lo p.1)
  | _, _ => false

/-- `InventoryViewService._determine_raw_sync_status`. -/
def determine_raw_sync_status (cloudSt : Option CloudRawStatus)
    (localSt : Option LocalRawStatus) : String :=
  let cloud_exists := match cloudSt with | some c => c.exists_ | none => false
  let local_exists := match localSt with | some l => l.downloaded | none => false
  if !cloud_exists && !local_exists then "missing"
  else if cloud_exists && !local_exists then "cloud_only"
  else if local_exists && !cloud_exists then "local_only"
  else if cloud_exists && local_exists then
    if raw_data_matches cloudSt localSt then "synced" else "mismatch"
  else "unknown"

/-- `InventoryViewService._determine_ml_sync_status`. -/
def determine_ml_sync_status (cloudSt : Option CloudMLStatus)
    (localSt : Option LocalMLStatus) : String :=
  let cloud_exists := match cloudSt with | some c => c.exists_ | none => false
  let local_exists := match localSt with | some l => l.downloaded | none => false
  if !cloud_exists && !local_exists then "missing"
  else if cloud_exists && !local_exists then "cloud_only"
  else if local_exists && !cloud_exists then "local_only"
  else if cloud_exists && local_exists then
    if ml_data_matches cloudSt localSt then "synced" else "mismatch"
  else "unknown"

/-- `InventoryViewService._get_raw_issues`, taking the already-computed
sync status of the item. -/
def get_raw_issues (cloudSt : Option CloudRawStatus) (localSt : Option LocalRawStatus)
    (raw_sync_status : String) : List String :=
  if raw_sync_status = "cloud_only" then ["Not downloaded locally"]
  else if raw_sync_status = "local_only" then ["Not available in cloud"]
  else if raw_sync_status = "mismatch" then
    match cloudSt, localSt with
    | some cl, some lo =>
      (if cl.bag_count ≠ lo.bag_count then
        ["Bag count mismatch: cloud=" ++ toString cl.bag_count ++
          ", local=" ++ toString lo.bag_count]
      else []) ++
      (if cl.total_size ≠ lo.total_size then
        ["Size mismatch: cloud=" ++ toString cl.total_size ++
          ", local=" ++ toString lo.total_size]
      else [])
    | _, _ => []
  else []

/-- `InventoryViewService._get_ml_issues`: for a mismatch, only a sample
count discrepancy produces an issue line. -/
def get_ml_issues (cloudSt : Option CloudMLStatus) (localSt : Option LocalMLStatus)
    (ml_sync_status : String) : List String :=
  if ml_sync_status = "cloud_only" then ["Not downloaded locally"]
  else if ml_sync_status = "local_only" then ["Not uploaded to cloud"]
  else if ml_sync_status = "mismatch" then
    match cloudSt, localSt with
    | some cl, some lo =>
      if cl.total_samples ≠ lo.total_samples then
        ["Sample count mismatch: cloud=" ++ toString cl.total_samples ++
          ", local=" ++ toString lo.total_samples]
      else []
    | _, _ => []
  else []

end InventoryViewService

-- ============================================================================
-- Transfer planning (src/services/cloud_operations/base_template.py,
-- raw_download_operation.py, ml_download_operation.py, ml_upload_operation.py)
-- ============================================================================

/-- Modelled from the spec: the selection-criteria object of a
`TransferJob` (§3) — the `TransferJob` dataclass is imported by
src/models/__init__.py but its definition is missing from
src/models/operations.py. Keys of the Python criteria dict become
optional fields. -/
structure SelectionCriteria where
  all : Bool
  bag_indices : Option (List Nat)
  bag_names : Option (List BagName)
  file_types : Option (List String)
deriving DecidableEq

/-- Modelled from the spec: `TransferJob` (§3) — coordinate, operation
type, selection criteria, conflict-resolution mode (`skip`/`overwrite`)
and a dry-run flag. The dataclass itself is missing from
src/models/operations.py; the fields are those read by the operations in
src/services/cloud_operations/. -/
structure TransferJob where
  coordinate : RunCoordinate
  operation_type : String
  selection_criteria : SelectionCriteria
  conflict_resolution : String
  dry_run : Bool
deriving DecidableEq

/-- Modelled from the spec: `TransferPlan` (§3) — the dataclass is
missing from src/models/operations.py; the fields are those of the
keyword constructions in the three `_create_operation_plan` methods.
The element types of the three lists differ per operation, so they are
type parameters. -/
structure TransferPlan (τ σ κ : Type) where
  coordinate : RunCoordinate
  files_to_transfer : List τ
  files_to_skip : List σ
  conflicts : List κ
  total_size : Nat
  total_files : Nat
deriving DecidableEq

/-- `CloudOperationTemplate._decide_file_action`: returns
`(should_transfer, is_conflict)`. Note that in `skip` mode with equal
sizes the source returns `(False, True)` although its docstring says
`conflict=False`. -/
def decide_file_action (job : TransferJob) (cloud_size local_size : Nat) : Bool × Bool :=
  if job.conflict_resolution = "overwrite" then (true, true)
  else if cloud_size = local_size then (false, true)
  else (true, true)

/-- An element of `files_to_transfer` in the raw download plan. -/
structure RawTransferItem where
  cloud_name : BagName
  local_name : BagName
  size : Nat
  conflict : Bool
deriving DecidableEq

/-- An element of `files_to_skip` in the raw download plan. -/
structure RawSkipItem where
  cloud_name : BagName
  local_name : BagName
  reason : String
  size : Nat
deriving DecidableEq

/-- An element of `conflicts` in the raw download plan. -/
structure RawConflictItem where
  name : BagName
  cloud_size : Nat
  local_size : Nat
  reason : String
deriving DecidableEq

/-- An element of the filtered ML file list handed to
`_create_operation_plan` by `_apply_selection_filter` (bag name in the
source side's convention, file type, file name and size). -/
structure MLFileItem where
  bag_name : BagName
  file_type : String
  filename : String
  size : Nat
deriving DecidableEq

/-- An element of `files_to_transfer` in the ML download/upload plans. -/
structure MLTransferItem where
  cloud_bag_name : BagName
  local_bag_name : BagName
  file_type : String
  filename : String
  size : Nat
  conflict : Bool
deriving DecidableEq

/-- An element of `files_to_skip` in the ML download/upload plans. -/
structure MLSkipItem where
  cloud_bag_name : BagName
  local_bag_name : BagName
  file_type : String
  filename : String
  reason : String
  size : Nat
deriving DecidableEq

/-- An element of `conflicts` in the ML download/upload plans. -/
structure MLConflictItem where
  filename : String
  file_type : String
  cloud_size : Nat
  local_size : Nat
  reason : String
deriving DecidableEq

/-- The nested existence-and-size lookup performed by the ML operations:
`bag in bag_files and file_type in bag_files[bag] and filename in
bag_files[bag][file_type]`, returning the recorded size on success. -/
def lookup_target_file (bag_files : List (BagName × BagFilesEntry)) (bag : BagName)
    (file_type : String) (filename : String) : Option Nat :=
  match dlookup bag bag_files with
  | none => none
  | some entry =>
    match (if file_type = "frames" then entry.frames
           else if file_type = "labels" then entry.labels
           else none) with
    | none => none
    | some files => dlookup filename files

namespace RawDownloadOperation

/-- The `local_cloud_names` map of
`RawDownloadOperation._create_operation_plan`: translated cloud name to
(local name, local size). -/
def local_cloud_names (target : LocalRawStatus) : List (BagName × BagName × Nat) :=
  target.bag_names.map (fun local_name =>
    (translate_bag_name_local_to_cloud local_name,
      local_name, (dlookup local_name target.bag_sizes).getD 0))

/-- The per-item classification loop of
`RawDownloadOperation._create_operation_plan`, producing
(files_to_transfer, files_to_skip, conflicts) in iteration order. -/
def classify (job : TransferJob) (source : CloudRawStatus) (target : LocalRawStatus) :
    List BagName → List RawTransferItem × List RawSkipItem × List RawConflictItem
  | [] => ([], [], [])
  | cloud_bag_name :: rest =>
    let acc := classify job source target rest
    let cloud_size := (dlookup cloud_bag_name source.bag_sizes).getD 0
    let local_bag_name := translate_bag_name_cloud_to_local cloud_bag_name
    match dlookup cloud_bag_name (local_cloud_names target) with
    | some li =>
      let action := decide_file_action job cloud_size li.2
      let cs1 :=
        if action.2 then
          (⟨cloud_bag_name, cloud_size, li.2,
            if cloud_size ≠ li.2 then "size_mismatch" else job.conflict_resolution⟩ :
            RawConflictItem) :: acc.2.2
        else acc.2.2
      if action.1 then
        (⟨cloud_bag_name, local_bag_name, cloud_size, action.2⟩ :: acc.1, acc.2.1, cs1)
      else
        (acc.1, ⟨cloud_bag_name, local_bag_name, "exists", cloud_size⟩ :: acc.2.1, cs1)
    | none =>
      (⟨cloud_bag_name, local_bag_name, cloud_size, false⟩ :: acc.1, acc.2.1, acc.2.2)

/-- `RawDownloadOperation._create_operation_plan`: classify the filtered
cloud bag names against the target listing; `total_size` and
`total_files` are derived from the transfer list alone. -/
def create_operation_plan (job : TransferJob) (filtered_items : List BagName)
    (source : CloudRawStatus) (target : LocalRawStatus) :
    TransferPlan RawTransferItem RawSkipItem RawConflictItem :=
  let acc := classify job source target filtered_items
  { coordinate := job.coordinate
    files_to_transfer := acc.1
    files_to_skip := acc.2.1
    conflicts := acc.2.2
    total_size := (acc.1.map (fun f => f.size)).sum
    total_files := acc.1.length }

end RawDownloadOperation

namespace MLDownloadOperation

/-- The per-item classification loop of
`MLDownloadOperation._create_operation_plan`. The source's
`cloud_local_names` dict maps each cloud bag of the source listing to
its translation, so indexing it coincides with applying the translation
to the item's bag name (filtered items are drawn from the source
listing). A conflicts entry is recorded only when the sizes mismatch. -/
def classify (job : TransferJob) (target : LocalMLStatus) :
    List MLFileItem → List MLTransferItem × List MLSkipItem × List MLConflictItem
  | [] => ([], [], [])
  | it :: rest =>
    let acc := classify job target rest
    let local_bag_name := translate_bag_name_cloud_to_local it.bag_name
    match lookup_target_file target.bag_files local_bag_name it.file_type it.filename with
    | none =>
      (⟨it.bag_name, local_bag_name, it.file_type, it.filename, it.size, false⟩ :: acc.1,
        acc.2.1, acc.2.2)
    | some local_size =>
      let action := decide_file_action job it.size local_size
      let cs1 :=
        if it.size ≠ local_size then
          (⟨it.filename, it.file_type, it.size, local_size, "size_mismatch"⟩ :
            MLConflictItem) :: acc.2.2
        else acc.2.2
      if action.1 then
        (⟨it.bag_name, local_bag_name, it.file_type, it.filename, it.size, action.2⟩ :: acc.1,
          acc.2.1, cs1)
      else
        (acc.1,
          ⟨it.bag_name, local_bag_name, it.file_type, it.filename,
            (if it.size = local_size then "already_exists" else "conflict_skip"),
            it.size⟩ :: acc.2.1,
          cs1)

/-- `MLDownloadOperation._create_operation_plan`. -/
def create_operation_plan (job : TransferJob) (filtered_items : List MLFileItem)
    (target : LocalMLStatus) : TransferPlan MLTransferItem MLSkipItem MLConflictItem :=
  let acc := classify job target filtered_items
  { coordinate := job.coordinate
    files_to_transfer := acc.1
    files_to_skip := acc.2.1
    conflicts := acc.2.2
    total_size := (acc.1.map (fun f => f.size)).sum
    total_files := acc.1.length }

end MLDownloadOperation

namespace MLUploadOperation

/-- The per-item classification loop of
`MLUploadOperation._create_operation_plan`. The `local_cloud_names` dict
maps each local bag of the source listing to its translation, so
indexing it coincides with applying the translation to the item's bag
name. As in the raw download, a conflicts entry is recorded whenever
`is_conflict` holds. -/
def classify (job : TransferJob) (target : CloudMLStatus) :
    List MLFileItem → List MLTransferItem × List MLSkipItem × List MLConflictItem
  | [] => ([], [], [])
  | it :: rest =>
    let acc := classify job target rest
    let cloud_bag_name := translate_bag_name_local_to_cloud it.bag_name
    match lookup_target_file target.bag_files cloud_bag_name it.file_type it.filename with
    | none =>
      (⟨cloud_bag_name, it.bag_name, it.file_type, it.filename, it.size, false⟩ :: acc.1,
        acc.2.1, acc.2.2)
    | some cloud_size =>
      let action := decide_file_action job cloud_size it.size
      let cs1 :=
        if action.2 then
          (⟨it.filename, it.file_type, cloud_size, it.size,
            if cloud_size ≠ it.size then "size_mismatch" else job.conflict_resolution⟩ :
            MLConflictItem) :: acc.2.2
        else acc.2.2
      if action.1 then
        (⟨cloud_bag_name, it.bag_name, it.file_type, it.filename, it.size, action.2⟩ :: acc.1,
          acc.2.1, cs1)
      else
        (acc.1,
          ⟨cloud_bag_name, it.bag_name, it.file_type, it.filename, "exists", it.size⟩ ::
            acc.2.1,
          cs1)

/-- `MLUploadOperation._create_operation_plan`. -/
def create_operation_plan (job : TransferJob) (filtered_items : List MLFileItem)
    (target : CloudMLStatus) : TransferPlan MLTransferItem MLSkipItem MLConflictItem :=
  let acc := classify job target filtered_items
  { coordinate := job.coordinate
    files_to_transfer := acc.1
    files_to_skip := acc.2.1
    conflicts := acc.2.2
    total_size := (acc.1.map (fun f => f.size)).sum
    total_files := acc.1.length }

end MLUploadOperation

-- ----------------------------------------------------------------------------
-- Per-item views of the classification loops (proof infrastructure: each
-- loop handles its items independently, so it is a `filterMap` of these).
-- ----------------------------------------------------------------------------

namespace RawDownloadOperation

/-- The transfer entry contributed by one filtered cloud bag name, if any. -/
def transferOf (job : TransferJob) (source : CloudRawStatus) (target : LocalRawStatus)
    (name : BagName) : Option RawTransferItem :=
  let cloud_size := (dlookup name source.bag_sizes).getD 0
  let local_name := translate_bag_name_cloud_to_local name
  match dlookup name (local_cloud_names target) with
  | some li =>
    if (decide_file_action job cloud_size li.2).1 then
      some ⟨name, local_name, cloud_size, (decide_file_action job cloud_size li.2).2⟩
    else none
  | none => some ⟨name, local_name, cloud_size, false⟩

/-- The skip entry contributed by one filtered cloud bag name, if any. -/
def skipOf (job : TransferJob) (source : CloudRawStatus) (target : LocalRawStatus)
    (name : BagName) : Option RawSkipItem :=
  let cloud_size := (dlookup name source.bag_sizes).getD 0
  let local_name := translate_bag_name_cloud_to_local name
  match dlookup name (local_cloud_names target) with
  | some li =>
    if (decide_file_action job cloud_size li.2).1 then none
    else some ⟨name, local_name, "exists", cloud_size⟩
  | none => none

/-- The conflicts entry contributed by one filtered cloud bag name, if any. -/
def conflictOf (job : TransferJob) (source : CloudRawStatus) (target : LocalRawStatus)
    (name : BagName) : Option RawConflictItem :=
  let cloud_size := (dlookup name source.bag_sizes).getD 0
  match dlookup name (local_cloud_names target) with
  | some li =>
    if (decide_file_action job cloud_size li.2).2 then
      some ⟨name, cloud_size, li.2,
        if cloud_size ≠ li.2 then "size_mismatch" else job.conflict_resolution⟩
    else none
  | none => none

end RawDownloadOperation

namespace MLDownloadOperation

/-- The transfer entry contributed by one filtered ML file, if any. -/
def transferOf (job : TransferJob) (target : LocalMLStatus) (it : MLFileItem) :
    Option MLTransferItem :=
  let local_bag_name := translate_bag_name_cloud_to_local it.bag_name
  match lookup_target_file target.bag_files local_bag_name it.file_type it.filename with
  | none => some ⟨it.bag_name, local_bag_name, it.file_type, it.filename, it.size, false⟩
  | some local_size =>
    if (decide_file_action job it.size local_size).1 then
      some ⟨it.bag_name, local_bag_name, it.file_type, it.filename, it.size,
        (decide_file_action job it.size local_size).2⟩
    else none

/-- The skip entry contributed by one filtered ML file, if any. -/
def skipOf (job : TransferJob) (target : LocalMLStatus) (it : MLFileItem) :
    Option MLSkipItem :=
  let local_bag_name := translate_bag_name_cloud_to_local it.bag_name
  match lookup_target_file target.bag_files local_bag_name it.file_type it.filename with
  | none => none
  | some local_size =>
    if (decide_file_action job it.size local_size).1 then none
    else some ⟨it.bag_name, local_bag_name, it.file_type, it.filename,
      (if it.size = local_size then "already_exists" else "conflict_skip"), it.size⟩

/-- The conflicts entry contributed by one filtered ML file, if any
(independent of the job's conflict policy). -/
def conflictOf (_job : TransferJob) (target : LocalMLStatus) (it : MLFileItem) :
    Option MLConflictItem :=
  let local_bag_name := translate_bag_name_cloud_to_local it.bag_name
  match lookup_target_file target.bag_files local_bag_name it.file_type it.filename with
  | none => none
  | some local_size =>
    if it.size ≠ local_size then
      some ⟨it.filename, it.file_type, it.size, local_size, "size_mismatch"⟩
    else none

end MLDownloadOperation

namespace MLUploadOperation

/-- The transfer entry contributed by one filtered ML file, if any. -/
def transferOf (job : TransferJob) (target : CloudMLStatus) (it : MLFileItem) :
    Option MLTransferItem :=
  let cloud_bag_name := translate_bag_name_local_to_cloud it.bag_name
  match lookup_target_file target.bag_files cloud_bag_name it.file_type it.filename with
  | none => some ⟨cloud_bag_name, it.bag_name, it.file_type, it.filename, it.size, false⟩
  | some cloud_size =>
    if (decide_file_action job cloud_size it.size).1 then
      some ⟨cloud_bag_name, it.bag_name, it.file_type, it.filename, it.size,
        (decide_file_action job cloud_size it.size).2⟩
    else none

/-- The skip entry contributed by one filtered ML file, if any. -/
def skipOf (job : TransferJob) (target : CloudMLStatus) (it : MLFileItem) :
    Option MLSkipItem :=
  let cloud_bag_name := translate_bag_name_local_to_cloud it.bag_name
  match lookup_target_file target.bag_files cloud_bag_name it.file_type it.filename with
  | none => none
  | some cloud_size =>
    if (decide_file_action job cloud_size it.size).1 then none
    else some ⟨cloud_bag_name, it.bag_name, it.file_type, it.filename, "exists", it.size⟩

/-- The conflicts entry contributed by one filtered ML file, if any. -/
def conflictOf (job : TransferJob) (target : CloudMLStatus) (it : MLFileItem) :
    Option MLConflictItem :=
  let cloud_bag_name := translate_bag_name_local_to_cloud it.bag_name
  match lookup_target_file target.bag_files cloud_bag_name it.file_type it.filename with
  | none => none
  | some cloud_size =>
    if (decide_file_action job cloud_size it.size).2 then
      some ⟨it.filename, it.file_type, cloud_size, it.size,
        if cloud_size ≠ it.size then "size_mismatch" else job.conflict_resolution⟩
    else none

end MLUploadOperation

-- ============================================================================
-- LocalStateService: bulk discovery walk
-- (src/services/core/local_state_service.py)
-- ============================================================================

/-- A local filesystem directory entry: a named subdirectory with its
content, or a plain file (skipped by the walk's `is_dir()` checks). -/
inductive Ent (α : Type) where
  | dir (name : String) (content : α)
  | file (name : String)
deriving DecidableEq

/-- The entry list of one directory level. -/
abbrev Lvl (α : Type) := List (Ent α)

/-- The content of a data root: six directory levels
(cid/regionid/fieldid/twid/lbid/timestamp); the walk does not look
inside the timestamp directories. -/
abbrev FSRoot := Lvl (Lvl (Lvl (Lvl (Lvl (Lvl Unit)))))

/-- The subdirectories of one level, in iteration order — the embedding
of `for d in p.iterdir(): if not d.is_dir(): continue`. -/
def dirsOf {α : Type} (l : Lvl α) : List (String × α) :=
  l.filterMap (fun e => match e with
    | .dir n c => some (n, c)
    | .file _ => none)

namespace LocalStateService

/-- `LocalStateService.get_all_raw_statuses`: if the raw root is absent
the result is empty; otherwise walk the six directory levels,
reconstruct a `RunCoordinate` from the directory names at each leaf
timestamp directory, and record its status. The per-coordinate status
computation (`get_raw_status` plus the surrounding `try`/`except`) is
supplied as an `Except`-valued oracle; a failing coordinate is skipped.
The Python result dict is embedded as the association list of its
insertions (directory names are unique within a directory, so keys are
unique). -/
def get_all_raw_statuses (raw_root : Option FSRoot)
    (status_of : RunCoordinate → Except String LocalRawStatus) :
    List (RunCoordinate × LocalRawStatus) :=
  match raw_root with
  | none => []
  | some root =>
    (dirsOf root).flatMap (fun cid =>
    (dirsOf cid.2).flatMap (fun rid =>
    (dirsOf rid.2).flatMap (fun fid =>
    (dirsOf fid.2).flatMap (fun tw =>
    (dirsOf tw.2).flatMap (fun lb =>
    (dirsOf lb.2).filterMap (fun ts =>
      match status_of ⟨cid.1, rid.1, fid.1, tw.1, lb.1, ts.1⟩ with
      | .ok status => some (⟨cid.1, rid.1, fid.1, tw.1, lb.1, ts.1⟩, status)
      | .error _ => none))))))

/-- `LocalStateService.get_all_ml_statuses`: the same walk rooted at
`ml_root/raw`, recording `LocalMLStatus` values. -/
def get_all_ml_statuses (ml_raw_root : Option FSRoot)
    (status_of : RunCoordinate → Except String LocalMLStatus) :
    List (RunCoordinate × LocalMLStatus) :=
  match ml_raw_root with
  | none => []
  | some root =>
    (dirsOf root).flatMap (fun cid =>
    (dirsOf cid.2).flatMap (fun rid =>
    (dirsOf rid.2).flatMap (fun fid =>
    (dirsOf fid.2).flatMap (fun tw =>
    (dirsOf tw.2).flatMap (fun lb =>
    (dirsOf lb.2).filterMap (fun ts =>
      match status_of ⟨cid.1, rid.1, fid.1, tw.1, lb.1, ts.1⟩ with
      | .ok status => some (⟨cid.1, rid.1, fid.1, tw.1, lb.1, ts.1⟩, status)
      | .error _ => none))))))

/-- The leaf timestamp directories of a root, as the coordinates
reconstructed from the six directory names, in walk order. -/
def leaf_coordinates (root : FSRoot) : List RunCoordinate :=
  (dirsOf root).flatMap (fun cid =>
  (dirsOf cid.2).flatMap (fun rid =>
  (dirsOf rid.2).flatMap (fun fid =>
  (dirsOf fid.2).flatMap (fun tw =>
  (dirsOf tw.2).flatMap (fun lb =>
  (dirsOf lb.2).map (fun ts =>
    (⟨cid.1, rid.1, fid.1, tw.1, lb.1, ts.1⟩ : RunCoordinate)))))))

end LocalStateService

-- ============================================================================
-- RawDownloadOperation._execute_transfer
-- (src/services/cloud_operations/raw_download_operation.py)
-- ============================================================================

/-- The outcome of one `blob.download_to_filename` call, supplied as an
oracle: the download completed writing `n` bytes, or it raised, having
possibly written some bytes first. -/
inductive DLOutcome where
  | wrote (n : Nat)
  | raised (written : Option Nat)
deriving DecidableEq

/-- The local directory holding this coordinate's bags: file sizes keyed
by local file name. -/
abbrev LocalFS := List (BagName × Nat)

/-- Remove a file (`local_path.unlink()`; no error if the lookups below
never see duplicates). -/
def fsErase (k : BagName) (fs : LocalFS) : LocalFS :=
  fs.filter (fun p => decide (p.1 ≠ k))

/-- Write a file of `v` bytes, replacing any previous content. -/
def fsInsert (k : BagName) (v : Nat) (fs : LocalFS) : LocalFS :=
  (k, v) :: fsErase k fs

/-- One element of the per-file `results` list (`duration` and the
error text are elided along with all wall-clock quantities). -/
structure FileResult where
  file : BagName
  success : Bool
deriving DecidableEq

/-- The aggregate `summary` dict (durations and throughput elided). -/
structure OperationSummary where
  total_files : Nat
  successful : Nat
  failed : Nat
  total_bytes : Nat
deriving DecidableEq

/-- The `OperationResult` of an execution (src/models/operations.py),
with the `result` payload flattened into `results`/`summary` and the
final filesystem carried explicitly. `critical` keeps its dataclass
default `False`. -/
structure ExecOutcome where
  success : Bool
  results : List FileResult
  summary : OperationSummary
  warning : Option String
  critical : Bool
  fs : LocalFS
deriving DecidableEq

namespace RawDownloadOperation

/-- One iteration of the download loop: build paths, download, verify
the size, and on any failure record it and delete the partially-written
local file. Returns (per-file result, bytes counted, filesystem). -/
def execute_step (dl : RawTransferItem → DLOutcome) (fs : LocalFS)
    (file_spec : RawTransferItem) : FileResult × Nat × LocalFS :=
  match dl file_spec with
  | .wrote n =>
    let fs1 := fsInsert file_spec.local_name n fs
    if n = file_spec.size then
      (⟨file_spec.cloud_name, true⟩, file_spec.size, fs1)
    else
      (⟨file_spec.cloud_name, false⟩, 0, fsErase file_spec.local_name fs1)
  | .raised w =>
    let fs1 := match w with
      | some n => fsInsert file_spec.local_name n fs
      | none => fs
    (⟨file_spec.cloud_name, false⟩, 0, fsErase file_spec.local_name fs1)

/-- The download loop over `plan.files_to_transfer`: accumulates the
per-file results, the failure count and the bytes moved; a failure never
stops the loop. -/
def execute_loop (dl : RawTransferItem → DLOutcome) :
    List RawTransferItem → LocalFS → List FileResult × Nat × Nat × LocalFS
  | [], fs => ([], 0, 0, fs)
  | file_spec :: rest, fs =>
    let step := execute_step dl fs file_spec
    let acc := execute_loop dl rest step.2.2
    (step.1 :: acc.1,
      (if step.1.success then 0 else 1) + acc.2.1,
      step.2.1 + acc.2.2.1,
      acc.2.2.2)

/-- `RawDownloadOperation._execute_transfer`: run the loop and aggregate
the summary; `success` iff no file failed, `critical` stays false, and a
warning reports the failure count. -/
def execute_transfer (plan : TransferPlan RawTransferItem RawSkipItem RawConflictItem)
    (dl : RawTransferItem → DLOutcome) (fs : LocalFS) : ExecOutcome :=
  let acc := execute_loop dl plan.files_to_transfer fs
  { success := decide (acc.2.1 = 0)
    results := acc.1
    summary := ⟨plan.files_to_transfer.length,
      plan.files_to_transfer.length - acc.2.1, acc.2.1, acc.2.2.1⟩
    warning := if acc.2.1 > 0 then some (toString acc.2.1 ++ " files failed") else none
    critical := false
    fs := acc.2.2.2 }

end RawDownloadOperation

-- ============================================================================
-- Theorems
-- ============================================================================

theorem replaceFirst_of_isPrefixOf (old new : List Char) (c : Char) (rest : List Char)
    (h : old.isPrefixOf (c :: rest)) :
    replaceFirst old new (c :: rest) = new ++ (c :: rest).drop old.length := by
  simp [replaceFirst, h]

theorem isPrefixOf_eq_true_iff (l : List Char) : ∀ s : List Char,
    l.isPrefixOf s = true ↔ ∃ t, s = l ++ t := by
  induction l with
  | nil => intro s; simp [List.isPrefixOf]
  | cons a as ih =>
    intro s
    cases s with
    | nil => simp [List.isPrefixOf]
    | cons b bs =>
      simp only [List.isPrefixOf, Bool.and_eq_true, beq_iff_eq, ih bs]
      constructor
      · rintro ⟨hab, t, ht⟩
        exact ⟨t, by simp [hab, ht]⟩
      · rintro ⟨t, ht⟩
        simp only [List.cons_append, List.cons.injEq] at ht
        exact ⟨ht.1.symm, t, ht.2⟩

/-- C8: the translation round-trip. For a cloud bag name beginning with
an underscore, translating to local and back yields the original; for a
local name beginning with `rosbag_`, translating to cloud and back
yields the original; and a name with an unexpected prefix is returned
unchanged by either direction rather than failing. -/
theorem C8_bag_name_translation_round_trip :
    (∀ s : BagName, ("_".data).isPrefixOf s = true →
      translate_bag_name_local_to_cloud (translate_bag_name_cloud_to_local s) = s) ∧
    (∀ s : BagName, ("rosbag_".data).isPrefixOf s = true →
      translate_bag_name_cloud_to_local (translate_bag_name_local_to_cloud s) = s) ∧
    (∀ s : BagName, ("_".data).isPrefixOf s = false →
      translate_bag_name_cloud_to_local s = s) ∧
    (∀ s : BagName, ("rosbag_".data).isPrefixOf s = false →
      translate_bag_name_local_to_cloud s = s) := by
  refine ⟨?_, ?_, ?_, ?_⟩
  · intro s hs
    obtain ⟨t, ht⟩ := (isPrefixOf_eq_true_iff _ s).1 hs
    subst ht
    simp [translate_bag_name_cloud_to_local, translate_bag_name_local_to_cloud,
      replaceFirst, List.isPrefixOf, String.data]
  · intro s hs
    obtain ⟨t, ht⟩ := (isPrefixOf_eq_true_iff _ s).1 hs
    subst ht
    simp [translate_bag_name_cloud_to_local, translate_bag_name_local_to_cloud,
      replaceFirst, List.isPrefixOf, String.data]
  · intro s hs
    simp [translate_bag_name_cloud_to_local, hs]
  · intro s hs
    simp [translate_bag_name_local_to_cloud, hs]

/-- Witness for the round-trip theorem at the concrete names
`_2025-08-12-08-54-21_0` and `rosbag_2025-08-12-08-54-21_0.bag`. -/
theorem C8_bag_name_translation_round_trip_witness :
    translate_bag_name_local_to_cloud
      (translate_bag_name_cloud_to_local ("_2025-08-12-08-54-21_0".data)) =
      "_2025-08-12-08-54-21_0".data ∧
    translate_bag_name_cloud_to_local
      (translate_bag_name_local_to_cloud ("rosbag_2025-08-12-08-54-21_0.bag".data)) =
      "rosbag_2025-08-12-08-54-21_0.bag".data ∧
    translate_bag_name_cloud_to_local ("oddname".data) = "oddname".data ∧
    translate_bag_name_local_to_cloud ("oddname".data) = "oddname".data := by
  refine ⟨?_, ?_, ?_, ?_⟩
  · exact C8_bag_name_translation_round_trip.1 _ (by decide)
  · exact C8_bag_name_translation_round_trip.2.1 _ (by decide)
  · exact C8_bag_name_translation_round_trip.2.2.1 _ (by decide)
  · exact C8_bag_name_translation_round_trip.2.2.2 _ (by decide)

/-- C1: navigating to an absent coordinate — the whole bucket key
missing from the inventory, or any of the six hierarchy levels missing —
yields the "does not exist" status for both the raw and the ML query,
rather than an error (the embedded queries are total functions). -/
theorem C1_cloud_status_absence_yields_not_exists :
    (∀ (inv : Inventory) (c : RunCoordinate), inv.raw = none →
      CloudInventoryService.get_raw_status inv c = CloudInventoryService.noCloudRawStatus) ∧
    (∀ (inv : Inventory) (c : RunCoordinate) (b : BucketTree RawLeaf), inv.raw = some b →
      CloudInventoryService.navigate_to_coordinate b c = none →
      CloudInventoryService.get_raw_status inv c = CloudInventoryService.noCloudRawStatus) ∧
    (∀ (inv : Inventory) (c : RunCoordinate), inv.ml = none →
      CloudInventoryService.get_ml_status inv c = CloudInventoryService.noCloudMLStatus) ∧
    (∀ (inv : Inventory) (c : RunCoordinate) (b : BucketTree MLLeaf), inv.ml = some b →
      CloudInventoryService.navigate_to_coordinate b c = none →
      CloudInventoryService.get_ml_status inv c = CloudInventoryService.noCloudMLStatus) := by
  refine ⟨?_, ?_, ?_, ?_⟩
  · intro inv c h
    simp [CloudInventoryService.get_raw_status, h]
  · intro inv c b hb hnav
    simp [CloudInventoryService.get_raw_status, hb, hnav]
  · intro inv c h
    simp [CloudInventoryService.get_ml_status, h]
  · intro inv c b hb hnav
    simp [CloudInventoryService.get_ml_status, hb, hnav]

/-- Witness: the queries at an inventory whose buckets are present but
empty, and at a concrete coordinate that is therefore absent at the very
first level. -/
theorem C1_cloud_status_absence_yields_not_exists_witness :
    CloudInventoryService.get_raw_status ⟨some [], some []⟩
      ⟨"nonexistent", "xxx", "yyy", "TW_999", "LB_999", "2025_01_01T00:00:00Z"⟩ =
      CloudInventoryService.noCloudRawStatus ∧
    CloudInventoryService.get_ml_status ⟨some [], some []⟩
      ⟨"nonexistent", "xxx", "yyy", "TW_999", "LB_999", "2025_01_01T00:00:00Z"⟩ =
      CloudInventoryService.noCloudMLStatus := by
  constructor
  · exact C1_cloud_status_absence_yields_not_exists.2.1 ⟨some [], some []⟩ _ [] rfl rfl
  · exact C1_cloud_status_absence_yields_not_exists.2.2.2 ⟨some [], some []⟩ _ [] rfl rfl

/-- C3 counterexample: a prior snapshot is persisted, the raw bucket's
listing then fails during a refresh while the ML bucket lists
successfully (as empty), and the save succeeds. The refresh replaces the
persisted snapshot with one whose raw bucket is empty: the previously
persisted snapshot is overwritten, contradicting the claim that it is
preserved on a listing failure. -/
theorem C3_counterexample_listing_failure_overwrites_disk :
    (CloudInventoryService.refresh_inventory
        (⟨some [("raw", [("client_001", 7)]), ("ml", [])],
          some [("raw", [("client_001", 7)]), ("ml", [])], false⟩ :
          CloudInventoryService.CloudCacheState Nat)
        [("raw", .error ()), ("ml", .ok [])] true).disk ≠
      some [("raw", [("client_001", 7)]), ("ml", [])] ∧
    (CloudInventoryService.refresh_inventory
        (⟨some [("raw", [("client_001", 7)]), ("ml", [])],
          some [("raw", [("client_001", 7)]), ("ml", [])], false⟩ :
          CloudInventoryService.CloudCacheState Nat)
        [("raw", .error ()), ("ml", .ok [])] true).disk =
      some [("raw", []), ("ml", [])] := by
  constructor
  · decide
  · decide

/-- C3 amended: a bucket-listing failure during refresh is caught and
surfaces as an empty scan result for that bucket, and the other bucket's
scan result is still used — the refresh always replaces the whole
in-memory snapshot with the freshly scanned one. When the save succeeds
the new snapshot (including any empty bucket) overwrites the persisted
one; the prior persisted snapshot is preserved only when the save itself
fails (that exception is caught and the refresh completes). -/
theorem C3_refresh_failure_semantics {γ : Type}
    (st : CloudInventoryService.CloudCacheState γ)
    (rawRes mlRes : Except Unit (Dict γ)) (saveOk : Bool) :
    (CloudInventoryService.refresh_inventory st [("raw", rawRes), ("ml", mlRes)] saveOk).mem =
      some [("raw", CloudInventoryService.scan_bucket rawRes),
            ("ml", CloudInventoryService.scan_bucket mlRes)] ∧
    CloudInventoryService.scan_bucket (.error () : Except Unit (Dict γ)) = [] ∧
    (saveOk = true →
      (CloudInventoryService.refresh_inventory st [("raw", rawRes), ("ml", mlRes)] saveOk).disk =
        some [("raw", CloudInventoryService.scan_bucket rawRes),
              ("ml", CloudInventoryService.scan_bucket mlRes)]) ∧
    (saveOk = false →
      (CloudInventoryService.refresh_inventory st [("raw", rawRes), ("ml", mlRes)] saveOk).disk =
        st.disk) := by
  refine ⟨?_, rfl, ?_, ?_⟩
  · cases saveOk <;>
      simp [CloudInventoryService.refresh_inventory, CloudInventoryService.save_cache]
  · intro h; subst h
    simp [CloudInventoryService.refresh_inventory, CloudInventoryService.save_cache]
  · intro h; subst h
    simp [CloudInventoryService.refresh_inventory, CloudInventoryService.save_cache]

/-- Witness for the refresh-semantics theorem at a concrete state, with
the raw listing failing, and at both save outcomes. -/
theorem C3_refresh_failure_semantics_witness :
    ((CloudInventoryService.refresh_inventory
        (⟨some [], some [("raw", [("k", 3)]), ("ml", [])], true⟩ :
          CloudInventoryService.CloudCacheState Nat)
        [("raw", .error ()), ("ml", .ok [("k", 3)])] true).mem =
      some [("raw", []), ("ml", [("k", 3)])]) ∧
    ((CloudInventoryService.refresh_inventory
        (⟨some [], some [("raw", [("k", 3)]), ("ml", [])], true⟩ :
          CloudInventoryService.CloudCacheState Nat)
        [("raw", .error ()), ("ml", .ok [("k", 3)])] false).disk =
      some [("raw", [("k", 3)]), ("ml", [])]) := by
  constructor
  · exact (C3_refresh_failure_semantics _ _ _ true).1
  · exact (C3_refresh_failure_semantics
      (⟨some [], some [("raw", [("k", 3)]), ("ml", [])], true⟩ :
        CloudInventoryService.CloudCacheState Nat) _ _ false).2.2.2 rfl

/-- C9 counterexample: two ML statuses describing the same single
sample, where the cloud and local sides agree on every count and file
name and the only difference is one label file size flipped by one byte
(10 vs 11). The sync status flips to `mismatch` as claimed, but the ML
issue list is empty — `_get_ml_issues` only reports sample-count
discrepancies — contradicting the claim that the issue list is
non-empty and names the discrepancy. The unflipped pair is `synced`. -/
theorem C9_counterexample_ml_size_flip_empty_issues :
    InventoryViewService.determine_ml_sync_status
      (some ⟨true, 1, [("_b_0".data, ⟨1, 1, none, none⟩)],
        [("_b_0".data, ⟨some [("f1.jpg", 100)], some [("l1.txt", 10)]⟩)]⟩)
      (some ⟨true, 1, [("rosbag_b_0".data, ⟨1, 1, none, none⟩)],
        [("rosbag_b_0".data, ⟨some [("f1.jpg", 100)], some [("l1.txt", 11)]⟩)], []⟩) =
      "mismatch" ∧
    InventoryViewService.get_ml_issues
      (some ⟨true, 1, [("_b_0".data, ⟨1, 1, none, none⟩)],
        [("_b_0".data, ⟨some [("f1.jpg", 100)], some [("l1.txt", 10)]⟩)]⟩)
      (some ⟨true, 1, [("rosbag_b_0".data, ⟨1, 1, none, none⟩)],
        [("rosbag_b_0".data, ⟨some [("f1.jpg", 100)], some [("l1.txt", 11)]⟩)], []⟩)
      "mismatch" = [] ∧
    InventoryViewService.determine_ml_sync_status
      (some ⟨true, 1, [("_b_0".data, ⟨1, 1, none, none⟩)],
        [("_b_0".data, ⟨some [("f1.jpg", 100)], some [("l1.txt", 10)]⟩)]⟩)
      (some ⟨true, 1, [("rosbag_b_0".data, ⟨1, 1, none, none⟩)],
        [("rosbag_b_0".data, ⟨some [("f1.jpg", 100)], some [("l1.txt", 10)]⟩)], []⟩) =
      "synced" := by
  refine ⟨by decide, by decide, by decide⟩

/-- C9 amended: when both sides have data, the sync status is `synced`
exactly when the service's deep-match predicate holds, and a `synced`
status always carries an empty issue list. Flipping a raw size (keeping
the count equal, so the totals differ) yields `mismatch` with a
non-empty issue list naming the size discrepancy. For ML, any failure of
the deep match — such as a single file size flipped by one byte — yields
`mismatch`, but the ML issue list names only sample-count
discrepancies: with equal sample counts it is empty. -/
theorem C9_reconciliation_sync_and_issue_semantics :
    (∀ (c : CloudRawStatus) (l : LocalRawStatus), c.exists_ = true → l.downloaded = true →
      (InventoryViewService.determine_raw_sync_status (some c) (some l) = "synced" ↔
        InventoryViewService.raw_data_matches (some c) (some l) = true)) ∧
    (∀ (cS : Option CloudRawStatus) (lS : Option LocalRawStatus),
      InventoryViewService.get_raw_issues cS lS "synced" = []) ∧
    (∀ (cS : Option CloudMLStatus) (lS : Option LocalMLStatus),
      InventoryViewService.get_ml_issues cS lS "synced" = []) ∧
    (∀ (c : CloudMLStatus) (l : LocalMLStatus), c.exists_ = true → l.downloaded = true →
      (InventoryViewService.determine_ml_sync_status (some c) (some l) = "synced" ↔
        InventoryViewService.ml_data_matches (some c) (some l) = true)) ∧
    (∀ (c : CloudRawStatus) (l : LocalRawStatus), c.exists_ = true → l.downloaded = true →
      c.bag_count = l.bag_count → c.total_size ≠ l.total_size →
      InventoryViewService.determine_raw_sync_status (some c) (some l) = "mismatch" ∧
      InventoryViewService.get_raw_issues (some c) (some l) "mismatch" ≠ []) ∧
    (∀ (c : CloudMLStatus) (l : LocalMLStatus), c.exists_ = true → l.downloaded = true →
      InventoryViewService.ml_data_matches (some c) (some l) = false →
      InventoryViewService.determine_ml_sync_status (some c) (some l) = "mismatch") ∧
    (∀ (c : CloudMLStatus) (l : LocalMLStatus), c.total_samples = l.total_samples →
      InventoryViewService.get_ml_issues (some c) (some l) "mismatch" = []) := by
  refine ⟨?_, ?_, ?_, ?_, ?_, ?_, ?_⟩
  · intro c l h1 h2
    cases hm : InventoryViewService.raw_data_matches (some c) (some l) <;>
      simp [InventoryViewService.determine_raw_sync_status, h1, h2, hm]
  · intro cS lS; rfl
  · intro cS lS; rfl
  · intro c l h1 h2
    cases hm : InventoryViewService.ml_data_matches (some c) (some l) <;>
      simp [InventoryViewService.determine_ml_sync_status, h1, h2, hm]
  · intro c l h1 h2 h3 h4
    have hm : InventoryViewService.raw_data_matches (some c) (some l) = false := by
      simp [InventoryViewService.raw_data_matches, h4]
    constructor
    · simp [InventoryViewService.determine_raw_sync_status, h1, h2, hm]
    · simp [InventoryViewService.get_raw_issues, h3, h4]
  · intro c l h1 h2 hm
    simp [InventoryViewService.determine_ml_sync_status, h1, h2, hm]
  · intro c l h
    simp [InventoryViewService.get_ml_issues, h]

/-- Witness for the reconciliation theorem: concrete raw statuses that
match (synced, no issues), the same statuses with one bag size flipped
by one byte (mismatch, non-empty issues), and a concrete ML pair with
equal sample counts (empty mismatch issue list). -/
theorem C9_reconciliation_sync_and_issue_semantics_witness :
    InventoryViewService.determine_raw_sync_status
      (some ⟨true, 1, ["_b_0".data], [("_b_0".data, 500)], 500⟩)
      (some ⟨true, 1, ["rosbag_b_0".data], [("rosbag_b_0".data, 500)], 500⟩) = "synced" ∧
    InventoryViewService.determine_raw_sync_status
      (some ⟨true, 1, ["_b_0".data], [("_b_0".data, 500)], 500⟩)
      (some ⟨true, 1, ["rosbag_b_0".data], [("rosbag_b_0".data, 501)], 501⟩) = "mismatch" ∧
    InventoryViewService.get_raw_issues
      (some ⟨true, 1, ["_b_0".data], [("_b_0".data, 500)], 500⟩)
      (some ⟨true, 1, ["rosbag_b_0".data], [("rosbag_b_0".data, 501)], 501⟩) "mismatch" ≠ [] ∧
    InventoryViewService.get_ml_issues
      (some ⟨true, 3, [], []⟩) (some ⟨true, 3, [], [], []⟩) "mismatch" = [] := by
  refine ⟨?_, ?_, ?_, ?_⟩
  · exact (C9_reconciliation_sync_and_issue_semantics.1 _ _ rfl rfl).2 (by decide)
  · exact (C9_reconciliation_sync_and_issue_semantics.2.2.2.2.1 _ _ rfl rfl rfl
      (by decide)).1
  · exact (C9_reconciliation_sync_and_issue_semantics.2.2.2.2.1 _ _ rfl rfl rfl
      (by decide)).2
  · exact C9_reconciliation_sync_and_issue_semantics.2.2.2.2.2.2 _ _ rfl

theorem decide_file_action_snd (job : TransferJob) (c l : Nat) :
    (decide_file_action job c l).2 = true := by
  unfold decide_file_action
  split_ifs <;> rfl

theorem decide_file_action_fst_overwrite (job : TransferJob) (c l : Nat)
    (h : job.conflict_resolution = "overwrite") :
    (decide_file_action job c l).1 = true := by
  simp [decide_file_action, h]

theorem decide_file_action_fst_of_ne (job : TransferJob) (c l : Nat) (h : c ≠ l) :
    (decide_file_action job c l).1 = true := by
  unfold decide_file_action
  split_ifs <;> simp_all

theorem rawClassify_eq (job : TransferJob) (source : CloudRawStatus)
    (target : LocalRawStatus) : ∀ items : List BagName,
    RawDownloadOperation.classify job source target items =
      (items.filterMap (RawDownloadOperation.transferOf job source target),
       items.filterMap (RawDownloadOperation.skipOf job source target),
       items.filterMap (RawDownloadOperation.conflictOf job source target)) := by
  intro items
  induction items with
  | nil => rfl
  | cons a rest ih =>
    simp only [RawDownloadOperation.classify, ih, List.filterMap_cons,
      RawDownloadOperation.transferOf, RawDownloadOperation.skipOf,
      RawDownloadOperation.conflictOf]
    cases hdl : dlookup a (RawDownloadOperation.local_cloud_names target) with
    | none => simp
    | some li =>
      cases h1 : (decide_file_action job ((dlookup a source.bag_sizes).getD 0) li.2).1 <;>
      cases h2 : (decide_file_action job ((dlookup a source.bag_sizes).getD 0) li.2).2 <;>
      simp [h1, h2]

theorem mlDownloadClassify_eq (job : TransferJob) (target : LocalMLStatus) :
    ∀ items : List MLFileItem,
    MLDownloadOperation.classify job target items =
      (items.filterMap (MLDownloadOperation.transferOf job target),
       items.filterMap (MLDownloadOperation.skipOf job target),
       items.filterMap (MLDownloadOperation.conflictOf job target)) := by
  intro items
  induction items with
  | nil => rfl
  | cons it rest ih =>
    simp only [MLDownloadOperation.classify, ih, List.filterMap_cons,
      MLDownloadOperation.transferOf, MLDownloadOperation.skipOf,
      MLDownloadOperation.conflictOf]
    cases hdl : lookup_target_file target.bag_files
        (translate_bag_name_cloud_to_local it.bag_name) it.file_type it.filename with
    | none => simp
    | some lsz =>
      cases h1 : (decide_file_action job it.size lsz).1 <;>
      rcases h2 : decide (it.size ≠ lsz) with _ | _ <;>
      simp_all

theorem mlUploadClassify_eq (job : TransferJob) (target : CloudMLStatus) :
    ∀ items : List MLFileItem,
    MLUploadOperation.classify job target items =
      (items.filterMap (MLUploadOperation.transferOf job target),
       items.filterMap (MLUploadOperation.skipOf job target),
       items.filterMap (MLUploadOperation.conflictOf job target)) := by
  intro items
  induction items with
  | nil => rfl
  | cons it rest ih =>
    simp only [MLUploadOperation.classify, ih, List.filterMap_cons,
      MLUploadOperation.transferOf, MLUploadOperation.skipOf,
      MLUploadOperation.conflictOf]
    cases hdl : lookup_target_file target.bag_files
        (translate_bag_name_local_to_cloud it.bag_name) it.file_type it.filename with
    | none => simp
    | some csz =>
      cases h1 : (decide_file_action job csz it.size).1 <;>
      cases h2 : (decide_file_action job csz it.size).2 <;>
      simp [h1, h2]

/-- Partition helper: when every element contributes to exactly one of
two `filterMap`s, with its key preserved, the keys of the two outputs
together are a permutation of the input keys. -/
theorem filterMap_partition_perm {α β γ δ : Type}
    (T : α → Option β) (S : α → Option γ) (kt : β → δ) (ks : γ → δ) (ki : α → δ)
    (h : ∀ a, (∃ b, T a = some b ∧ kt b = ki a ∧ S a = none) ∨
              (T a = none ∧ ∃ s, S a = some s ∧ ks s = ki a)) :
    ∀ l : List α, ((l.filterMap T).map kt ++ (l.filterMap S).map ks).Perm (l.map ki) := by
  intro l
  induction l with
  | nil => simp
  | cons a rest ih =>
    rcases h a with ⟨b, hT, hk, hS⟩ | ⟨hT, s, hS, hk⟩
    · simpa [List.filterMap_cons, hT, hS, hk] using ih.cons (ki a)
    · simp only [List.filterMap_cons, hT, hS, List.map_cons]
      refine List.Perm.trans List.perm_middle ?_
      rw [hk]
      exact ih.cons (ki a)

/-- C4: at a raw-download job with `conflict_resolution=skip` and one
selected bag whose translated counterpart exists locally with the same
size (500 bytes), the plan places the file in `files_to_skip` (reason
`exists`) as claimed, but also records a conflicts entry with reason
`skip` — `_decide_file_action` returns `is_conflict=True` here although
its own docstring says `conflict=False`. This theorem evaluates the
embedded code at that failing input. -/
theorem C4_skip_equal_size_records_spurious_conflict :
    (RawDownloadOperation.create_operation_plan
        ⟨⟨"c", "r", "f", "t", "l", "ts"⟩, "raw_download", ⟨true, none, none, none⟩,
          "skip", true⟩
        ["_a_0".data]
        ⟨true, 1, ["_a_0".data], [("_a_0".data, 500)], 500⟩
        ⟨true, 1, ["rosbag_a_0".data], [("rosbag_a_0".data, 500)], 500⟩).files_to_skip =
      [⟨"_a_0".data, "rosbag_a_0".data, "exists", 500⟩] ∧
    (RawDownloadOperation.create_operation_plan
        ⟨⟨"c", "r", "f", "t", "l", "ts"⟩, "raw_download", ⟨true, none, none, none⟩,
          "skip", true⟩
        ["_a_0".data]
        ⟨true, 1, ["_a_0".data], [("_a_0".data, 500)], 500⟩
        ⟨true, 1, ["rosbag_a_0".data], [("rosbag_a_0".data, 500)], 500⟩).conflicts =
      [⟨"_a_0".data, 500, 500, "skip"⟩] ∧
    (RawDownloadOperation.create_operation_plan
        ⟨⟨"c", "r", "f", "t", "l", "ts"⟩, "raw_download", ⟨true, none, none, none⟩,
          "skip", true⟩
        ["_a_0".data]
        ⟨true, 1, ["_a_0".data], [("_a_0".data, 500)], 500⟩
        ⟨true, 1, ["rosbag_a_0".data], [("rosbag_a_0".data, 500)], 500⟩).files_to_transfer =
      [] := by
  refine ⟨by decide, by decide, by decide⟩

/-- C5 counterexample: an ML-download job with
`conflict_resolution=overwrite` and one selected file that exists
locally with the identical size (10 bytes). The file is scheduled to
transfer with its conflict flag set, but the plan's `conflicts` list is
empty — `MLDownloadOperation._create_operation_plan` records a conflicts
entry only on a size mismatch, so the claim fails for this operation. -/
theorem C5_counterexample_ml_download_equal_size_overwrite :
    (MLDownloadOperation.create_operation_plan
        ⟨⟨"c", "r", "f", "t", "l", "ts"⟩, "ml_download", ⟨true, none, none, none⟩,
          "overwrite", true⟩
        [⟨"_b_0".data, "labels", "l1.txt", 10⟩]
        ⟨true, 1, [("rosbag_b_0".data, ⟨0, 1, none, none⟩)],
          [("rosbag_b_0".data, ⟨none, some [("l1.txt", 10)]⟩)], []⟩).files_to_transfer =
      [⟨"_b_0".data, "rosbag_b_0".data, "labels", "l1.txt", 10, true⟩] ∧
    (MLDownloadOperation.create_operation_plan
        ⟨⟨"c", "r", "f", "t", "l", "ts"⟩, "ml_download", ⟨true, none, none, none⟩,
          "overwrite", true⟩
        [⟨"_b_0".data, "labels", "l1.txt", 10⟩]
        ⟨true, 1, [("rosbag_b_0".data, ⟨0, 1, none, none⟩)],
          [("rosbag_b_0".data, ⟨none, some [("l1.txt", 10)]⟩)], []⟩).conflicts = [] := by
  refine ⟨by decide, by decide⟩

/-- C5 amended: under `conflict_resolution=overwrite`, every selected
file whose translated counterpart exists in the target is placed in
`files_to_transfer` in all three operations; it is also recorded in the
plan's conflicts list in the raw download and the ML upload regardless
of size equality, but the ML download records a conflicts-list entry
only when the sizes differ (the transferred item still carries
`conflict=true`; with all sizes equal its conflicts list is empty). -/
theorem C5_overwrite_totality_per_operation :
    (∀ (job : TransferJob) (items : List BagName) (source : CloudRawStatus)
        (target : LocalRawStatus) (name ln : BagName) (lsz : Nat),
      job.conflict_resolution = "overwrite" →
      dlookup name (RawDownloadOperation.local_cloud_names target) = some (ln, lsz) →
      name ∈ items →
      (∃ t ∈ (RawDownloadOperation.create_operation_plan job items source
          target).files_to_transfer, t.cloud_name = name) ∧
      (∃ c ∈ (RawDownloadOperation.create_operation_plan job items source
          target).conflicts, c.name = name)) ∧
    (∀ (job : TransferJob) (items : List MLFileItem) (target : CloudMLStatus)
        (it : MLFileItem) (csz : Nat),
      job.conflict_resolution = "overwrite" →
      lookup_target_file target.bag_files (translate_bag_name_local_to_cloud it.bag_name)
        it.file_type it.filename = some csz →
      it ∈ items →
      (∃ t ∈ (MLUploadOperation.create_operation_plan job items
          target).files_to_transfer, t.filename = it.filename ∧ t.file_type = it.file_type) ∧
      (∃ c ∈ (MLUploadOperation.create_operation_plan job items target).conflicts,
        c.filename = it.filename ∧ c.file_type = it.file_type)) ∧
    (∀ (job : TransferJob) (items : List MLFileItem) (target : LocalMLStatus)
        (it : MLFileItem) (lsz : Nat),
      job.conflict_resolution = "overwrite" →
      lookup_target_file target.bag_files (translate_bag_name_cloud_to_local it.bag_name)
        it.file_type it.filename = some lsz →
      it ∈ items →
      ∃ t ∈ (MLDownloadOperation.create_operation_plan job items
          target).files_to_transfer,
        t.filename = it.filename ∧ t.file_type = it.file_type ∧ t.conflict = true) ∧
    (∀ (job : TransferJob) (items : List MLFileItem) (target : LocalMLStatus),
      (∀ it ∈ items, ∀ lsz : Nat,
        lookup_target_file target.bag_files (translate_bag_name_cloud_to_local it.bag_name)
          it.file_type it.filename = some lsz → it.size = lsz) →
      (MLDownloadOperation.create_operation_plan job items target).conflicts = []) := by
  refine ⟨?_, ?_, ?_, ?_⟩
  · intro job items source target name ln lsz hover hdl hmem
    have hfst := decide_file_action_fst_overwrite job
      ((dlookup name source.bag_sizes).getD 0) lsz hover
    have hsnd := decide_file_action_snd job ((dlookup name source.bag_sizes).getD 0) lsz
    constructor
    · refine ⟨⟨name, translate_bag_name_cloud_to_local name,
        (dlookup name source.bag_sizes).getD 0,
        (decide_file_action job ((dlookup name source.bag_sizes).getD 0) lsz).2⟩,
        ?_, rfl⟩
      simp only [RawDownloadOperation.create_operation_plan, rawClassify_eq]
      exact List.mem_filterMap.mpr ⟨name, hmem, by
        simp [RawDownloadOperation.transferOf, hdl, hfst]⟩
    · refine ⟨⟨name, (dlookup name source.bag_sizes).getD 0, lsz,
        if (dlookup name source.bag_sizes).getD 0 ≠ lsz then "size_mismatch"
        else job.conflict_resolution⟩, ?_, rfl⟩
      simp only [RawDownloadOperation.create_operation_plan, rawClassify_eq]
      exact List.mem_filterMap.mpr ⟨name, hmem, by
        simp [RawDownloadOperation.conflictOf, hdl, hsnd]⟩
  · intro job items target it csz hover hdl hmem
    have hfst := decide_file_action_fst_overwrite job csz it.size hover
    have hsnd := decide_file_action_snd job csz it.size
    constructor
    · refine ⟨⟨translate_bag_name_local_to_cloud it.bag_name, it.bag_name, it.file_type,
        it.filename, it.size, (decide_file_action job csz it.size).2⟩, ?_, rfl, rfl⟩
      simp only [MLUploadOperation.create_operation_plan, mlUploadClassify_eq]
      exact List.mem_filterMap.mpr ⟨it, hmem, by
        simp [MLUploadOperation.transferOf, hdl, hfst]⟩
    · refine ⟨⟨it.filename, it.file_type, csz, it.size,
        if csz ≠ it.size then "size_mismatch" else job.conflict_resolution⟩, ?_, rfl, rfl⟩
      simp only [MLUploadOperation.create_operation_plan, mlUploadClassify_eq]
      exact List.mem_filterMap.mpr ⟨it, hmem, by
        simp [MLUploadOperation.conflictOf, hdl, hsnd]⟩
  · intro job items target it lsz hover hdl hmem
    have hfst := decide_file_action_fst_overwrite job it.size lsz hover
    have hsnd := decide_file_action_snd job it.size lsz
    refine ⟨⟨it.bag_name, translate_bag_name_cloud_to_local it.bag_name, it.file_type,
      it.filename, it.size, (decide_file_action job it.size lsz).2⟩, ?_, rfl, rfl, hsnd⟩
    simp only [MLDownloadOperation.create_operation_plan, mlDownloadClassify_eq]
    exact List.mem_filterMap.mpr ⟨it, hmem, by
      simp [MLDownloadOperation.transferOf, hdl, hfst]⟩
  · intro job items target hall
    simp only [MLDownloadOperation.create_operation_plan, mlDownloadClassify_eq]
    refine List.filterMap_eq_nil_iff.mpr ?_
    intro it hmem
    cases hl : lookup_target_file target.bag_files
        (translate_bag_name_cloud_to_local it.bag_name) it.file_type it.filename with
    | none => simp [MLDownloadOperation.conflictOf, hl]
    | some lsz =>
      have heq := hall it hmem lsz hl
      simp [MLDownloadOperation.conflictOf, hl, heq]

/-- Witness for the overwrite-policy theorem: a raw-download overwrite
job against an identical-size local copy is transferred and recorded as
a conflict, and an equal-size ML download under overwrite yields an
empty conflicts list. -/
theorem C5_overwrite_totality_per_operation_witness :
    (∃ t ∈ (RawDownloadOperation.create_operation_plan
        ⟨⟨"c", "r", "f", "t", "l", "ts"⟩, "raw_download", ⟨true, none, none, none⟩,
          "overwrite", true⟩
        ["_a_0".data]
        ⟨true, 1, ["_a_0".data], [("_a_0".data, 500)], 500⟩
        ⟨true, 1, ["rosbag_a_0".data], [("rosbag_a_0".data, 500)], 500⟩).files_to_transfer,
      t.cloud_name = "_a_0".data) ∧
    (∃ c ∈ (RawDownloadOperation.create_operation_plan
        ⟨⟨"c", "r", "f", "t", "l", "ts"⟩, "raw_download", ⟨true, none, none, none⟩,
          "overwrite", true⟩
        ["_a_0".data]
        ⟨true, 1, ["_a_0".data], [("_a_0".data, 500)], 500⟩
        ⟨true, 1, ["rosbag_a_0".data], [("rosbag_a_0".data, 500)], 500⟩).conflicts,
      c.name = "_a_0".data) ∧
    (MLDownloadOperation.create_operation_plan
        ⟨⟨"c", "r", "f", "t", "l", "ts"⟩, "ml_download", ⟨true, none, none, none⟩,
          "overwrite", true⟩
        [⟨"_b_0".data, "labels", "l1.txt", 10⟩]
        ⟨true, 1, [("rosbag_b_0".data, ⟨0, 1, none, none⟩)],
          [("rosbag_b_0".data, ⟨none, some [("l1.txt", 10)]⟩)], []⟩).conflicts = [] := by
  refine ⟨?_, ?_, ?_⟩
  · exact (C5_overwrite_totality_per_operation.1 _ ["_a_0".data] _ _ "_a_0".data
      "rosbag_a_0".data 500 rfl (by decide) (by decide)).1
  · exact (C5_overwrite_totality_per_operation.1 _ ["_a_0".data] _ _ "_a_0".data
      "rosbag_a_0".data 500 rfl (by decide) (by decide)).2
  · exact C5_overwrite_totality_per_operation.2.2.2 _ _ _ (by decide)

/-- C6: in all three operations and under either conflict policy, a
selected file whose translated counterpart exists in the target with a
differing size is placed in `files_to_transfer` and recorded in the
conflicts list with reason `size_mismatch` — the skip policy only
suppresses overwriting identical files. -/
theorem C6_size_mismatch_always_transfers_and_conflicts :
    (∀ (job : TransferJob) (items : List BagName) (source : CloudRawStatus)
        (target : LocalRawStatus) (name ln : BagName) (lsz : Nat),
      dlookup name (RawDownloadOperation.local_cloud_names target) = some (ln, lsz) →
      lsz ≠ (dlookup name source.bag_sizes).getD 0 →
      name ∈ items →
      (∃ t ∈ (RawDownloadOperation.create_operation_plan job items source
          target).files_to_transfer, t.cloud_name = name) ∧
      (∃ c ∈ (RawDownloadOperation.create_operation_plan job items source
          target).conflicts, c.name = name ∧ c.reason = "size_mismatch")) ∧
    (∀ (job : TransferJob) (items : List MLFileItem) (target : LocalMLStatus)
        (it : MLFileItem) (lsz : Nat),
      lookup_target_file target.bag_files (translate_bag_name_cloud_to_local it.bag_name)
        it.file_type it.filename = some lsz →
      lsz ≠ it.size →
      it ∈ items →
      (∃ t ∈ (MLDownloadOperation.create_operation_plan job items
          target).files_to_transfer, t.filename = it.filename ∧ t.file_type = it.file_type) ∧
      ⟨it.filename, it.file_type, it.size, lsz, "size_mismatch"⟩ ∈
        (MLDownloadOperation.create_operation_plan job items target).conflicts) ∧
    (∀ (job : TransferJob) (items : List MLFileItem) (target : CloudMLStatus)
        (it : MLFileItem) (csz : Nat),
      lookup_target_file target.bag_files (translate_bag_name_local_to_cloud it.bag_name)
        it.file_type it.filename = some csz →
      csz ≠ it.size →
      it ∈ items →
      (∃ t ∈ (MLUploadOperation.create_operation_plan job items
          target).files_to_transfer, t.filename = it.filename ∧ t.file_type = it.file_type) ∧
      (∃ c ∈ (MLUploadOperation.create_operation_plan job items target).conflicts,
        c.filename = it.filename ∧ c.file_type = it.file_type ∧
        c.reason = "size_mismatch")) := by
  refine ⟨?_, ?_, ?_⟩
  · intro job items source target name ln lsz hdl hne hmem
    have hfst := decide_file_action_fst_of_ne job
      ((dlookup name source.bag_sizes).getD 0) lsz (Ne.symm hne)
    have hsnd := decide_file_action_snd job ((dlookup name source.bag_sizes).getD 0) lsz
    constructor
    · refine ⟨⟨name, translate_bag_name_cloud_to_local name,
        (dlookup name source.bag_sizes).getD 0,
        (decide_file_action job ((dlookup name source.bag_sizes).getD 0) lsz).2⟩,
        ?_, rfl⟩
      simp only [RawDownloadOperation.create_operation_plan, rawClassify_eq]
      exact List.mem_filterMap.mpr ⟨name, hmem, by
        simp [RawDownloadOperation.transferOf, hdl, hfst]⟩
    · refine ⟨⟨name, (dlookup name source.bag_sizes).getD 0, lsz, "size_mismatch"⟩,
        ?_, rfl, rfl⟩
      simp only [RawDownloadOperation.create_operation_plan, rawClassify_eq]
      refine List.mem_filterMap.mpr ⟨name, hmem, ?_⟩
      simp [RawDownloadOperation.conflictOf, hdl, hsnd, Ne.symm hne]
  · intro job items target it lsz hdl hne hmem
    have hfst := decide_file_action_fst_of_ne job it.size lsz (Ne.symm hne)
    constructor
    · refine ⟨⟨it.bag_name, translate_bag_name_cloud_to_local it.bag_name, it.file_type,
        it.filename, it.size, (decide_file_action job it.size lsz).2⟩, ?_, rfl, rfl⟩
      simp only [MLDownloadOperation.create_operation_plan, mlDownloadClassify_eq]
      exact List.mem_filterMap.mpr ⟨it, hmem, by
        simp [MLDownloadOperation.transferOf, hdl, hfst]⟩
    · simp only [MLDownloadOperation.create_operation_plan, mlDownloadClassify_eq]
      refine List.mem_filterMap.mpr ⟨it, hmem, ?_⟩
      simp [MLDownloadOperation.conflictOf, hdl, Ne.symm hne]
  · intro job items target it csz hdl hne hmem
    have hfst := decide_file_action_fst_of_ne job csz it.size hne
    have hsnd := decide_file_action_snd job csz it.size
    constructor
    · refine ⟨⟨translate_bag_name_local_to_cloud it.bag_name, it.bag_name, it.file_type,
        it.filename, it.size, (decide_file_action job csz it.size).2⟩, ?_, rfl, rfl⟩
      simp only [MLUploadOperation.create_operation_plan, mlUploadClassify_eq]
      exact List.mem_filterMap.mpr ⟨it, hmem, by
        simp [MLUploadOperation.transferOf, hdl, hfst]⟩
    · refine ⟨⟨it.filename, it.file_type, csz, it.size, "size_mismatch"⟩, ?_, rfl, rfl, rfl⟩
      simp only [MLUploadOperation.create_operation_plan, mlUploadClassify_eq]
      refine List.mem_filterMap.mpr ⟨it, hmem, ?_⟩
      simp [MLUploadOperation.conflictOf, hdl, hsnd, hne]

/-- Witness for the size-mismatch theorem: a raw-download skip job whose
local copy has 501 bytes against 500 in the cloud. -/
theorem C6_size_mismatch_always_transfers_and_conflicts_witness :
    (∃ t ∈ (RawDownloadOperation.create_operation_plan
        ⟨⟨"c", "r", "f", "t", "l", "ts"⟩, "raw_download", ⟨true, none, none, none⟩,
          "skip", true⟩
        ["_a_0".data]
        ⟨true, 1, ["_a_0".data], [("_a_0".data, 500)], 500⟩
        ⟨true, 1, ["rosbag_a_0".data], [("rosbag_a_0".data, 501)], 501⟩).files_to_transfer,
      t.cloud_name = "_a_0".data) ∧
    (∃ c ∈ (RawDownloadOperation.create_operation_plan
        ⟨⟨"c", "r", "f", "t", "l", "ts"⟩, "raw_download", ⟨true, none, none, none⟩,
          "skip", true⟩
        ["_a_0".data]
        ⟨true, 1, ["_a_0".data], [("_a_0".data, 500)], 500⟩
        ⟨true, 1, ["rosbag_a_0".data], [("rosbag_a_0".data, 501)], 501⟩).conflicts,
      c.name = "_a_0".data ∧ c.reason = "size_mismatch") := by
  constructor
  · exact (C6_size_mismatch_always_transfers_and_conflicts.1 _ ["_a_0".data] _ _
      "_a_0".data "rosbag_a_0".data 501 (by decide) (by decide) (by decide)).1
  · exact (C6_size_mismatch_always_transfers_and_conflicts.1 _ ["_a_0".data] _ _
      "_a_0".data "rosbag_a_0".data 501 (by decide) (by decide) (by decide)).2

theorem rawConflictOf_name (job : TransferJob) (source : CloudRawStatus)
    (target : LocalRawStatus) (a : BagName) (c : RawConflictItem) :
    RawDownloadOperation.conflictOf job source target a = some c → c.name = a := by
  cases hdl : dlookup a (RawDownloadOperation.local_cloud_names target) with
  | none => intro h; simp [RawDownloadOperation.conflictOf, hdl] at h
  | some li =>
    intro h
    simp only [RawDownloadOperation.conflictOf, hdl] at h
    split at h
    · obtain rfl := Option.some.inj h; rfl
    · exact Option.noConfusion h

theorem mlDownloadConflictOf_fields (job : TransferJob) (target : LocalMLStatus)
    (it : MLFileItem) (c : MLConflictItem) :
    MLDownloadOperation.conflictOf job target it = some c →
    c.filename = it.filename ∧ c.file_type = it.file_type := by
  cases hdl : lookup_target_file target.bag_files
      (translate_bag_name_cloud_to_local it.bag_name) it.file_type it.filename with
  | none => intro h; simp [MLDownloadOperation.conflictOf, hdl] at h
  | some lsz =>
    intro h
    simp only [MLDownloadOperation.conflictOf, hdl] at h
    split at h
    · obtain rfl := Option.some.inj h; exact ⟨rfl, rfl⟩
    · exact Option.noConfusion h

theorem mlUploadConflictOf_fields (job : TransferJob) (target : CloudMLStatus)
    (it : MLFileItem) (c : MLConflictItem) :
    MLUploadOperation.conflictOf job target it = some c →
    c.filename = it.filename ∧ c.file_type = it.file_type := by
  cases hdl : lookup_target_file target.bag_files
      (translate_bag_name_local_to_cloud it.bag_name) it.file_type it.filename with
  | none => intro h; simp [MLUploadOperation.conflictOf, hdl] at h
  | some csz =>
    intro h
    simp only [MLUploadOperation.conflictOf, hdl] at h
    split at h
    · obtain rfl := Option.some.inj h; exact ⟨rfl, rfl⟩
    · exact Option.noConfusion h

/-- C7: in each of the three operations, the plan partitions the
selected file list by identity — the identities of `files_to_transfer`
and `files_to_skip` together are a permutation of the selected
identities, and every conflicts entry refers to a selected file — and
`total_files` / `total_size` are the length of, and the sum of the size
fields over, `files_to_transfer`. -/
theorem C7_plan_conservation :
    (∀ (job : TransferJob) (items : List BagName) (source : CloudRawStatus)
        (target : LocalRawStatus),
      (((RawDownloadOperation.create_operation_plan job items source
          target).files_to_transfer.map (fun t => t.cloud_name)) ++
        ((RawDownloadOperation.create_operation_plan job items source
          target).files_to_skip.map (fun s => s.cloud_name))).Perm items ∧
      (∀ c ∈ (RawDownloadOperation.create_operation_plan job items source
          target).conflicts, c.name ∈ items) ∧
      (RawDownloadOperation.create_operation_plan job items source target).total_files =
        (RawDownloadOperation.create_operation_plan job items source
          target).files_to_transfer.length ∧
      (RawDownloadOperation.create_operation_plan job items source target).total_size =
        ((RawDownloadOperation.create_operation_plan job items source
          target).files_to_transfer.map (fun t => t.size)).sum) ∧
    (∀ (job : TransferJob) (items : List MLFileItem) (target : LocalMLStatus),
      (((MLDownloadOperation.create_operation_plan job items
          target).files_to_transfer.map (fun t => (t.cloud_bag_name, t.file_type, t.filename))) ++
        ((MLDownloadOperation.create_operation_plan job items
          target).files_to_skip.map (fun s => (s.cloud_bag_name, s.file_type, s.filename)))).Perm
        (items.map (fun it => (it.bag_name, it.file_type, it.filename))) ∧
      (∀ c ∈ (MLDownloadOperation.create_operation_plan job items target).conflicts,
        ∃ it ∈ items, c.filename = it.filename ∧ c.file_type = it.file_type) ∧
      (MLDownloadOperation.create_operation_plan job items target).total_files =
        (MLDownloadOperation.create_operation_plan job items
          target).files_to_transfer.length ∧
      (MLDownloadOperation.create_operation_plan job items target).total_size =
        ((MLDownloadOperation.create_operation_plan job items
          target).files_to_transfer.map (fun t => t.size)).sum) ∧
    (∀ (job : TransferJob) (items : List MLFileItem) (target : CloudMLStatus),
      (((MLUploadOperation.create_operation_plan job items
          target).files_to_transfer.map (fun t => (t.local_bag_name, t.file_type, t.filename))) ++
        ((MLUploadOperation.create_operation_plan job items
          target).files_to_skip.map (fun s => (s.local_bag_name, s.file_type, s.filename)))).Perm
        (items.map (fun it => (it.bag_name, it.file_type, it.filename))) ∧
      (∀ c ∈ (MLUploadOperation.create_operation_plan job items target).conflicts,
        ∃ it ∈ items, c.filename = it.filename ∧ c.file_type = it.file_type) ∧
      (MLUploadOperation.create_operation_plan job items target).total_files =
        (MLUploadOperation.create_operation_plan job items
          target).files_to_transfer.length ∧
      (MLUploadOperation.create_operation_plan job items target).total_size =
        ((MLUploadOperation.create_operation_plan job items
          target).files_to_transfer.map (fun t => t.size)).sum) := by
  refine ⟨?_, ?_, ?_⟩
  · intro job items source target
    refine ⟨?_, ?_, rfl, rfl⟩
    · have hexc : ∀ a : BagName,
          (∃ b, RawDownloadOperation.transferOf job source target a = some b ∧
            b.cloud_name = a ∧ RawDownloadOperation.skipOf job source target a = none) ∨
          (RawDownloadOperation.transferOf job source target a = none ∧
            ∃ s, RawDownloadOperation.skipOf job source target a = some s ∧
              s.cloud_name = a) := by
        intro a
        cases hdl : dlookup a (RawDownloadOperation.local_cloud_names target) with
        | none =>
          exact Or.inl ⟨⟨a, translate_bag_name_cloud_to_local a,
            (dlookup a source.bag_sizes).getD 0, false⟩,
            by simp [RawDownloadOperation.transferOf, hdl], rfl,
            by simp [RawDownloadOperation.skipOf, hdl]⟩
        | some li =>
          cases h1 : (decide_file_action job ((dlookup a source.bag_sizes).getD 0) li.2).1 with
          | true =>
            exact Or.inl ⟨⟨a, translate_bag_name_cloud_to_local a,
              (dlookup a source.bag_sizes).getD 0,
              (decide_file_action job ((dlookup a source.bag_sizes).getD 0) li.2).2⟩,
              by simp [RawDownloadOperation.transferOf, hdl, h1], rfl,
              by simp [RawDownloadOperation.skipOf, hdl, h1]⟩
          | false =>
            exact Or.inr ⟨by simp [RawDownloadOperation.transferOf, hdl, h1],
              ⟨a, translate_bag_name_cloud_to_local a, "exists",
                (dlookup a source.bag_sizes).getD 0⟩,
              by simp [RawDownloadOperation.skipOf, hdl, h1], rfl⟩
      have hperm := filterMap_partition_perm
        (RawDownloadOperation.transferOf job source target)
        (RawDownloadOperation.skipOf job source target)
        (fun t => t.cloud_name) (fun s => s.cloud_name) (fun a => a) hexc items
      simpa [RawDownloadOperation.create_operation_plan, rawClassify_eq] using hperm
    · intro c hc
      simp only [RawDownloadOperation.create_operation_plan, rawClassify_eq] at hc
      obtain ⟨a, ha, hsome⟩ := List.mem_filterMap.mp hc
      rw [rawConflictOf_name job source target a c hsome]
      exact ha
  · intro job items target
    refine ⟨?_, ?_, rfl, rfl⟩
    · have hexc : ∀ it : MLFileItem,
          (∃ b, MLDownloadOperation.transferOf job target it = some b ∧
            (b.cloud_bag_name, b.file_type, b.filename) =
              (it.bag_name, it.file_type, it.filename) ∧
            MLDownloadOperation.skipOf job target it = none) ∨
          (MLDownloadOperation.transferOf job target it = none ∧
            ∃ s, MLDownloadOperation.skipOf job target it = some s ∧
              (s.cloud_bag_name, s.file_type, s.filename) =
                (it.bag_name, it.file_type, it.filename)) := by
        intro it
        cases hdl : lookup_target_file target.bag_files
            (translate_bag_name_cloud_to_local it.bag_name) it.file_type it.filename with
        | none =>
          exact Or.inl ⟨⟨it.bag_name, translate_bag_name_cloud_to_local it.bag_name,
            it.file_type, it.filename, it.size, false⟩,
            by simp [MLDownloadOperation.transferOf, hdl], rfl,
            by simp [MLDownloadOperation.skipOf, hdl]⟩
        | some lsz =>
          cases h1 : (decide_file_action job it.size lsz).1 with
          | true =>
            exact Or.inl ⟨⟨it.bag_name, translate_bag_name_cloud_to_local it.bag_name,
              it.file_type, it.filename, it.size, (decide_file_action job it.size lsz).2⟩,
              by simp [MLDownloadOperation.transferOf, hdl, h1], rfl,
              by simp [MLDownloadOperation.skipOf, hdl, h1]⟩
          | false =>
            exact Or.inr ⟨by simp [MLDownloadOperation.transferOf, hdl, h1],
              ⟨it.bag_name, translate_bag_name_cloud_to_local it.bag_name,
                it.file_type, it.filename,
                (if it.size = lsz then "already_exists" else "conflict_skip"), it.size⟩,
              by simp [MLDownloadOperation.skipOf, hdl, h1], rfl⟩
      have hperm := filterMap_partition_perm
        (MLDownloadOperation.transferOf job target)
        (MLDownloadOperation.skipOf job target)
        (fun t => (t.cloud_bag_name, t.file_type, t.filename))
        (fun s => (s.cloud_bag_name, s.file_type, s.filename))
        (fun it => (it.bag_name, it.file_type, it.filename)) hexc items
      simpa [MLDownloadOperation.create_operation_plan, mlDownloadClassify_eq] using hperm
    · intro c hc
      simp only [MLDownloadOperation.create_operation_plan, mlDownloadClassify_eq] at hc
      obtain ⟨it, hit, hsome⟩ := List.mem_filterMap.mp hc
      exact ⟨it, hit, mlDownloadConflictOf_fields job target it c hsome⟩
  · intro job items target
    refine ⟨?_, ?_, rfl, rfl⟩
    · have hexc : ∀ it : MLFileItem,
          (∃ b, MLUploadOperation.transferOf job target it = some b ∧
            (b.local_bag_name, b.file_type, b.filename) =
              (it.bag_name, it.file_type, it.filename) ∧
            MLUploadOperation.skipOf job target it = none) ∨
          (MLUploadOperation.transferOf job target it = none ∧
            ∃ s, MLUploadOperation.skipOf job target it = some s ∧
              (s.local_bag_name, s.file_type, s.filename) =
                (it.bag_name, it.file_type, it.filename)) := by
        intro it
        cases hdl : lookup_target_file target.bag_files
            (translate_bag_name_local_to_cloud it.bag_name) it.file_type it.filename with
        | none =>
          exact Or.inl ⟨⟨translate_bag_name_local_to_cloud it.bag_name, it.bag_name,
            it.file_type, it.filename, it.size, false⟩,
            by simp [MLUploadOperation.transferOf, hdl], rfl,
            by simp [MLUploadOperation.skipOf, hdl]⟩
        | some csz =>
          cases h1 : (decide_file_action job csz it.size).1 with
          | true =>
            exact Or.inl ⟨⟨translate_bag_name_local_to_cloud it.bag_name, it.bag_name,
              it.file_type, it.filename, it.size, (decide_file_action job csz it.size).2⟩,
              by simp [MLUploadOperation.transferOf, hdl, h1], rfl,
              by simp [MLUploadOperation.skipOf, hdl, h1]⟩
          | false =>
            exact Or.inr ⟨by simp [MLUploadOperation.transferOf, hdl, h1],
              ⟨translate_bag_name_local_to_cloud it.bag_name, it.bag_name,
                it.file_type, it.filename, "exists", it.size⟩,
              by simp [MLUploadOperation.skipOf, hdl, h1], rfl⟩
      have hperm := filterMap_partition_perm
        (MLUploadOperation.transferOf job target)
        (MLUploadOperation.skipOf job target)
        (fun t => (t.local_bag_name, t.file_type, t.filename))
        (fun s => (s.local_bag_name, s.file_type, s.filename))
        (fun it => (it.bag_name, it.file_type, it.filename)) hexc items
      simpa [MLUploadOperation.create_operation_plan, mlUploadClassify_eq] using hperm
    · intro c hc
      simp only [MLUploadOperation.create_operation_plan, mlUploadClassify_eq] at hc
      obtain ⟨it, hit, hsome⟩ := List.mem_filterMap.mp hc
      exact ⟨it, hit, mlUploadConflictOf_fields job target it c hsome⟩

/-- Witness for plan conservation: a concrete two-bag raw-download job
where one bag transfers and one (identical) bag is skipped, with the
permutation, the conflicts origin, and both totals applied there. -/
theorem C7_plan_conservation_witness :
    ((((RawDownloadOperation.create_operation_plan
        ⟨⟨"c", "r", "f", "t", "l", "ts"⟩, "raw_download", ⟨true, none, none, none⟩,
          "skip", true⟩
        ["_a_0".data, "_b_1".data]
        ⟨true, 2, ["_a_0".data, "_b_1".data],
          [("_a_0".data, 500), ("_b_1".data, 700)], 1200⟩
        ⟨true, 1, ["rosbag_a_0".data], [("rosbag_a_0".data, 500)], 500⟩).files_to_transfer.map
          (fun t => t.cloud_name)) ++
      ((RawDownloadOperation.create_operation_plan
        ⟨⟨"c", "r", "f", "t", "l", "ts"⟩, "raw_download", ⟨true, none, none, none⟩,
          "skip", true⟩
        ["_a_0".data, "_b_1".data]
        ⟨true, 2, ["_a_0".data, "_b_1".data],
          [("_a_0".data, 500), ("_b_1".data, 700)], 1200⟩
        ⟨true, 1, ["rosbag_a_0".data], [("rosbag_a_0".data, 500)], 500⟩).files_to_skip.map
          (fun s => s.cloud_name))).Perm ["_a_0".data, "_b_1".data]) ∧
    ("_a_0".data : BagName) ∈ (["_a_0".data, "_b_1".data] : List BagName) ∧
    (RawDownloadOperation.create_operation_plan
        ⟨⟨"c", "r", "f", "t", "l", "ts"⟩, "raw_download", ⟨true, none, none, none⟩,
          "skip", true⟩
        ["_a_0".data, "_b_1".data]
        ⟨true, 2, ["_a_0".data, "_b_1".data],
          [("_a_0".data, 500), ("_b_1".data, 700)], 1200⟩
        ⟨true, 1, ["rosbag_a_0".data], [("rosbag_a_0".data, 500)], 500⟩).total_files =
      (RawDownloadOperation.create_operation_plan
        ⟨⟨"c", "r", "f", "t", "l", "ts"⟩, "raw_download", ⟨true, none, none, none⟩,
          "skip", true⟩
        ["_a_0".data, "_b_1".data]
        ⟨true, 2, ["_a_0".data, "_b_1".data],
          [("_a_0".data, 500), ("_b_1".data, 700)], 1200⟩
        ⟨true, 1, ["rosbag_a_0".data],
          [("rosbag_a_0".data, 500)], 500⟩).files_to_transfer.length := by
  refine ⟨?_, ?_, ?_⟩
  · exact (C7_plan_conservation.1 _ ["_a_0".data, "_b_1".data] _ _).1
  · exact (C7_plan_conservation.1
      ⟨⟨"c", "r", "f", "t", "l", "ts"⟩, "raw_download", ⟨true, none, none, none⟩,
        "skip", true⟩
      ["_a_0".data, "_b_1".data]
      ⟨true, 2, ["_a_0".data, "_b_1".data], [("_a_0".data, 500), ("_b_1".data, 700)], 1200⟩
      ⟨true, 1, ["rosbag_a_0".data], [("rosbag_a_0".data, 500)], 500⟩).2.1
      ⟨"_a_0".data, 500, 500, "skip"⟩ (by decide)
  · exact (C7_plan_conservation.1 _ ["_a_0".data, "_b_1".data] _ _).2.2.1

theorem filterMap_flatMap_eq {α β γ : Type} (l : List α) (g : α → List β)
    (f : β → Option γ) :
    (l.flatMap g).filterMap f = l.flatMap (fun a => (g a).filterMap f) := by
  induction l with
  | nil => rfl
  | cons a rest ih => simp [List.flatMap_cons, List.filterMap_append, ih]

/-- C2: the bulk discovery walks. For any local tree, the mapping
returned by `get_all_raw_statuses` / `get_all_ml_statuses` has exactly
one entry — keyed by the coordinate reconstructed from the six directory
names, valued by its computed status — for every leaf timestamp
directory whose status computation succeeds; a coordinate whose status
computation fails is skipped and the walk continues. An absent data root
yields the empty mapping. -/
theorem C2_bulk_discovery_one_entry_per_leaf :
    (∀ (root : FSRoot) (f : RunCoordinate → Except String LocalRawStatus),
      LocalStateService.get_all_raw_statuses (some root) f =
        (LocalStateService.leaf_coordinates root).filterMap (fun c =>
          match f c with
          | .ok s => some (c, s)
          | .error _ => none)) ∧
    (∀ f : RunCoordinate → Except String LocalRawStatus,
      LocalStateService.get_all_raw_statuses none f = []) ∧
    (∀ (root : FSRoot) (f : RunCoordinate → Except String LocalMLStatus),
      LocalStateService.get_all_ml_statuses (some root) f =
        (LocalStateService.leaf_coordinates root).filterMap (fun c =>
          match f c with
          | .ok s => some (c, s)
          | .error _ => none)) ∧
    (∀ f : RunCoordinate → Except String LocalMLStatus,
      LocalStateService.get_all_ml_statuses none f = []) := by
  refine ⟨?_, fun f => rfl, ?_, fun f => rfl⟩
  · intro root f
    simp [LocalStateService.get_all_raw_statuses, LocalStateService.leaf_coordinates,
      filterMap_flatMap_eq, List.filterMap_map, Function.comp_def]
  · intro root f
    simp [LocalStateService.get_all_ml_statuses, LocalStateService.leaf_coordinates,
      filterMap_flatMap_eq, List.filterMap_map, Function.comp_def]

theorem dlookup_fsErase (j k : BagName) : ∀ fs : LocalFS,
    dlookup k (fsErase j fs) = if j = k then none else dlookup k fs := by
  intro fs
  induction fs with
  | nil => simp [fsErase, dlookup]
  | cons p rest ih =>
    rcases p with ⟨a, v⟩
    by_cases haj : a = j
    · subst haj
      have hdrop : fsErase a ((a, v) :: rest) = fsErase a rest := by simp [fsErase]
      rw [hdrop, ih]
      by_cases hak : a = k
      · subst hak; simp
      · simp [dlookup, hak]
    · have hkeep : fsErase j ((a, v) :: rest) = (a, v) :: fsErase j rest := by
        simp [fsErase, haj]
      rw [hkeep]
      by_cases hak : a = k
      · subst hak
        have hjk : j ≠ a := fun h => haj h.symm
        simp [dlookup, hjk]
      · simp [dlookup, hak, ih]

theorem dlookup_fsInsert (j k : BagName) (v : Nat) (fs : LocalFS) :
    dlookup k (fsInsert j v fs) = if j = k then some v else dlookup k fs := by
  by_cases hjk : j = k
  · subst hjk; simp [fsInsert, dlookup]
  · simp [fsInsert, dlookup, hjk, dlookup_fsErase]

theorem execute_step_ok (dl : RawTransferItem → DLOutcome) (fs : LocalFS)
    (file_spec : RawTransferItem) (h : dl file_spec = .wrote file_spec.size) :
    RawDownloadOperation.execute_step dl fs file_spec =
      (⟨file_spec.cloud_name, true⟩, file_spec.size,
        fsInsert file_spec.local_name file_spec.size fs) := by
  simp [RawDownloadOperation.execute_step, h]

theorem execute_step_fail_verify (dl : RawTransferItem → DLOutcome) (fs : LocalFS)
    (file_spec : RawTransferItem) (n : Nat) (h : dl file_spec = .wrote n)
    (hne : n ≠ file_spec.size) :
    RawDownloadOperation.execute_step dl fs file_spec =
      (⟨file_spec.cloud_name, false⟩, 0,
        fsErase file_spec.local_name (fsInsert file_spec.local_name n fs)) := by
  simp [RawDownloadOperation.execute_step, h, hne]

theorem execute_step_fs_lookup_other (dl : RawTransferItem → DLOutcome) (fs : LocalFS)
    (file_spec : RawTransferItem) (k : BagName) (h : file_spec.local_name ≠ k) :
    dlookup k (RawDownloadOperation.execute_step dl fs file_spec).2.2 = dlookup k fs := by
  unfold RawDownloadOperation.execute_step
  cases dl file_spec with
  | wrote n =>
    by_cases hn : n = file_spec.size <;>
      simp [hn, dlookup_fsInsert, dlookup_fsErase, h]
  | raised w =>
    cases w <;> simp [dlookup_fsInsert, dlookup_fsErase, h]

theorem execute_loop_append (dl : RawTransferItem → DLOutcome) :
    ∀ (A B : List RawTransferItem) (fs : LocalFS),
    RawDownloadOperation.execute_loop dl (A ++ B) fs =
      ((RawDownloadOperation.execute_loop dl A fs).1 ++
        (RawDownloadOperation.execute_loop dl B
          (RawDownloadOperation.execute_loop dl A fs).2.2.2).1,
       (RawDownloadOperation.execute_loop dl A fs).2.1 +
        (RawDownloadOperation.execute_loop dl B
          (RawDownloadOperation.execute_loop dl A fs).2.2.2).2.1,
       (RawDownloadOperation.execute_loop dl A fs).2.2.1 +
        (RawDownloadOperation.execute_loop dl B
          (RawDownloadOperation.execute_loop dl A fs).2.2.2).2.2.1,
       (RawDownloadOperation.execute_loop dl B
        (RawDownloadOperation.execute_loop dl A fs).2.2.2).2.2.2) := by
  intro A
  induction A with
  | nil => intro B fs; simp [RawDownloadOperation.execute_loop]
  | cons spec rest ih =>
    intro B fs
    simp [RawDownloadOperation.execute_loop, ih, Nat.add_assoc]

theorem execute_loop_all_ok (dl : RawTransferItem → DLOutcome) :
    ∀ (L : List RawTransferItem) (fs : LocalFS),
    (∀ it ∈ L, dl it = .wrote it.size) →
    RawDownloadOperation.execute_loop dl L fs =
      (L.map (fun t => (⟨t.cloud_name, true⟩ : FileResult)), 0,
        (L.map (fun t => t.size)).sum,
        L.foldl (fun f t => fsInsert t.local_name t.size f) fs) := by
  intro L
  induction L with
  | nil => intro fs _; rfl
  | cons spec rest ih =>
    intro fs h
    have hs := h spec (List.mem_cons_self spec rest)
    simp [RawDownloadOperation.execute_loop, execute_step_ok dl fs spec hs,
      ih _ (fun it hit => h it (List.mem_cons_of_mem _ hit))]

theorem execute_loop_fs_lookup_other (dl : RawTransferItem → DLOutcome) :
    ∀ (L : List RawTransferItem) (fs : LocalFS) (k : BagName),
    (∀ it ∈ L, it.local_name ≠ k) →
    dlookup k (RawDownloadOperation.execute_loop dl L fs).2.2.2 = dlookup k fs := by
  intro L
  induction L with
  | nil => intro fs k _; rfl
  | cons spec rest ih =>
    intro fs k h
    have h1 := h spec (List.mem_cons_self spec rest)
    simp only [RawDownloadOperation.execute_loop]
    rw [ih _ k (fun it hit => h it (List.mem_cons_of_mem _ hit))]
    exact execute_step_fs_lookup_other dl fs spec k h1

theorem execute_loop_all_ok_lookup (dl : RawTransferItem → DLOutcome) :
    ∀ (L : List RawTransferItem) (fs : LocalFS) (it : RawTransferItem),
    (∀ x ∈ L, dl x = .wrote x.size) →
    (L.map (fun t => t.local_name)).Nodup →
    it ∈ L →
    dlookup it.local_name (RawDownloadOperation.execute_loop dl L fs).2.2.2 =
      some it.size := by
  intro L
  induction L with
  | nil => intro fs it _ _ hmem; cases hmem
  | cons spec rest ih =>
    intro fs it hall hnd hmem
    have hs := hall spec (List.mem_cons_self spec rest)
    simp only [List.map_cons, List.nodup_cons] at hnd
    rcases List.mem_cons.mp hmem with rfl | hit
    · simp only [RawDownloadOperation.execute_loop]
      rw [execute_loop_fs_lookup_other dl rest _ it.local_name ?_]
      · rw [execute_step_ok dl fs it hs]
        simp [dlookup_fsInsert]
      · intro x hx heq
        exact hnd.1 (heq ▸ List.mem_map_of_mem (fun t => t.local_name) hx)
    · simp only [RawDownloadOperation.execute_loop]
      exact ih _ it (fun x hx => hall x (List.mem_cons_of_mem _ hx)) hnd.2 hit

/-- C10: over a plan of `N = |L1| + 1 + |L2|` files whose local names
are distinct, where every file except `bad` downloads with its expected
size and `bad` downloads with a wrong size (failing verification), the
execution reports exactly `N-1` successes and `1` failure,
`success=false`, `critical=false`; the partially-written artifact for
`bad` is absent from the final filesystem while every other file is
present with its expected size; and the per-file results show the
failure did not abort the remaining transfers. -/
theorem C10_partial_failure_isolation
    (plan : TransferPlan RawTransferItem RawSkipItem RawConflictItem)
    (dl : RawTransferItem → DLOutcome) (fs0 : LocalFS)
    (L1 L2 : List RawTransferItem) (bad : RawTransferItem) (n : Nat)
    (hplan : plan.files_to_transfer = L1 ++ bad :: L2)
    (hnodup : ((L1 ++ bad :: L2).map (fun t => t.local_name)).Nodup)
    (hbad : dl bad = .wrote n) (hbadne : n ≠ bad.size)
    (hok1 : ∀ it ∈ L1, dl it = .wrote it.size)
    (hok2 : ∀ it ∈ L2, dl it = .wrote it.size) :
    (RawDownloadOperation.execute_transfer plan dl fs0).summary.failed = 1 ∧
    (RawDownloadOperation.execute_transfer plan dl fs0).summary.successful =
      L1.length + L2.length ∧
    (RawDownloadOperation.execute_transfer plan dl fs0).summary.total_files =
      L1.length + 1 + L2.length ∧
    (RawDownloadOperation.execute_transfer plan dl fs0).success = false ∧
    (RawDownloadOperation.execute_transfer plan dl fs0).critical = false ∧
    dlookup bad.local_name (RawDownloadOperation.execute_transfer plan dl fs0).fs = none ∧
    (∀ it ∈ L1, dlookup it.local_name
      (RawDownloadOperation.execute_transfer plan dl fs0).fs = some it.size) ∧
    (∀ it ∈ L2, dlookup it.local_name
      (RawDownloadOperation.execute_transfer plan dl fs0).fs = some it.size) ∧
    (RawDownloadOperation.execute_transfer plan dl fs0).results =
      (L1.map (fun t => (⟨t.cloud_name, true⟩ : FileResult))) ++
        ⟨bad.cloud_name, false⟩ :: (L2.map (fun t => (⟨t.cloud_name, true⟩ : FileResult))) := by
  -- decompose the no-duplicate hypothesis
  have hnd := hnodup
  simp only [List.map_append, List.map_cons, List.nodup_append, List.nodup_cons] at hnd
  obtain ⟨hL1nd, ⟨hbadnotL2, hL2nd⟩, hdisj⟩ := hnd
  have hL2ne_bad : ∀ it ∈ L2, it.local_name ≠ bad.local_name := by
    intro it hit heq
    exact hbadnotL2 (heq ▸ List.mem_map_of_mem (fun t => t.local_name) hit)
  have hL1notin : ∀ it ∈ L1, ∀ x ∈ L2, x.local_name ≠ it.local_name := by
    intro it hit x hx heq
    exact hdisj (List.mem_map_of_mem (fun t => t.local_name) hit)
      (List.mem_cons_of_mem _ (heq ▸ List.mem_map_of_mem (fun t => t.local_name) hx))
  have hbad_ne_L1 : ∀ it ∈ L1, bad.local_name ≠ it.local_name := by
    intro it hit heq
    exact hdisj (List.mem_map_of_mem (fun t => t.local_name) hit)
      (heq ▸ List.mem_cons_self _ _)
  -- the whole loop, decomposed around the failing file
  have hloop : RawDownloadOperation.execute_loop dl (L1 ++ bad :: L2) fs0 =
      (L1.map (fun t => (⟨t.cloud_name, true⟩ : FileResult)) ++
        ⟨bad.cloud_name, false⟩ :: L2.map (fun t => (⟨t.cloud_name, true⟩ : FileResult)),
       1,
       (L1.map (fun t => t.size)).sum + (L2.map (fun t => t.size)).sum,
       L2.foldl (fun f t => fsInsert t.local_name t.size f)
         (fsErase bad.local_name (fsInsert bad.local_name n
           (L1.foldl (fun f t => fsInsert t.local_name t.size f) fs0)))) := by
    rw [execute_loop_append dl L1 (bad :: L2) fs0,
      execute_loop_all_ok dl L1 fs0 hok1]
    simp only [RawDownloadOperation.execute_loop]
    rw [execute_step_fail_verify dl _ bad n hbad hbadne,
      execute_loop_all_ok dl L2 _ hok2]
    simp
  have hfold2 :
      L2.foldl (fun f t => fsInsert t.local_name t.size f)
        (fsErase bad.local_name (fsInsert bad.local_name n
          (L1.foldl (fun f t => fsInsert t.local_name t.size f) fs0))) =
      (RawDownloadOperation.execute_loop dl L2
        (fsErase bad.local_name (fsInsert bad.local_name n
          (L1.foldl (fun f t => fsInsert t.local_name t.size f) fs0)))).2.2.2 := by
    rw [execute_loop_all_ok dl L2 _ hok2]
  have hfold1 :
      L1.foldl (fun f t => fsInsert t.local_name t.size f) fs0 =
      (RawDownloadOperation.execute_loop dl L1 fs0).2.2.2 := by
    rw [execute_loop_all_ok dl L1 fs0 hok1]
  refine ⟨?_, ?_, ?_, ?_, ?_, ?_, ?_, ?_, ?_⟩
  · simp [RawDownloadOperation.execute_transfer, hplan, hloop]
  · simp only [RawDownloadOperation.execute_transfer, hplan, hloop]
    simp [List.length_append]
  · simp only [RawDownloadOperation.execute_transfer, hplan, hloop]
    simp [List.length_append]
    omega
  · simp [RawDownloadOperation.execute_transfer, hplan, hloop]
  · rfl
  · simp only [RawDownloadOperation.execute_transfer, hplan, hloop]
    rw [hfold2, execute_loop_fs_lookup_other dl L2 _ bad.local_name
      (fun it hit => hL2ne_bad it hit)]
    simp [dlookup_fsErase]
  · intro it hit
    simp only [RawDownloadOperation.execute_transfer, hplan, hloop]
    rw [hfold2, execute_loop_fs_lookup_other dl L2 _ it.local_name
      (fun x hx => hL1notin it hit x hx)]
    rw [dlookup_fsErase, if_neg (hbad_ne_L1 it hit), dlookup_fsInsert,
      if_neg (hbad_ne_L1 it hit), hfold1]
    exact execute_loop_all_ok_lookup dl L1 fs0 it hok1 hL1nd hit
  · intro it hit
    simp only [RawDownloadOperation.execute_transfer, hplan, hloop]
    rw [hfold2]
    exact execute_loop_all_ok_lookup dl L2 _ it hok2 hL2nd hit
  · simp [RawDownloadOperation.execute_transfer, hplan, hloop]

/-- Witness: a two-file plan where the first file downloads correctly
(500 bytes) and the second writes 1 byte instead of 700, failing size
verification: one failure, one success, `success=false`,
`critical=false`, the bad file absent afterwards and the good one
present. -/
theorem C10_partial_failure_isolation_witness :
    (RawDownloadOperation.execute_transfer
      ⟨⟨"c", "r", "f", "t", "l", "ts"⟩,
        [⟨"_a_0".data, "rosbag_a_0".data, 500, false⟩,
         ⟨"_b_1".data, "rosbag_b_1".data, 700, false⟩], [], [], 1200, 2⟩
      (fun spec => if spec.cloud_name = "_a_0".data then .wrote 500 else .wrote 1)
      []).summary.failed = 1 ∧
    (RawDownloadOperation.execute_transfer
      ⟨⟨"c", "r", "f", "t", "l", "ts"⟩,
        [⟨"_a_0".data, "rosbag_a_0".data, 500, false⟩,
         ⟨"_b_1".data, "rosbag_b_1".data, 700, false⟩], [], [], 1200, 2⟩
      (fun spec => if spec.cloud_name = "_a_0".data then .wrote 500 else .wrote 1)
      []).summary.successful = 1 ∧
    (RawDownloadOperation.execute_transfer
      ⟨⟨"c", "r", "f", "t", "l", "ts"⟩,
        [⟨"_a_0".data, "rosbag_a_0".data, 500, false⟩,
         ⟨"_b_1".data, "rosbag_b_1".data, 700, false⟩], [], [], 1200, 2⟩
      (fun spec => if spec.cloud_name = "_a_0".data then .wrote 500 else .wrote 1)
      []).success = false ∧
    (RawDownloadOperation.execute_transfer
      ⟨⟨"c", "r", "f", "t", "l", "ts"⟩,
        [⟨"_a_0".data, "rosbag_a_0".data, 500, false⟩,
         ⟨"_b_1".data, "rosbag_b_1".data, 700, false⟩], [], [], 1200, 2⟩
      (fun spec => if spec.cloud_name = "_a_0".data then .wrote 500 else .wrote 1)
      []).critical = false ∧
    dlookup ("rosbag_b_1".data) (RawDownloadOperation.execute_transfer
      ⟨⟨"c", "r", "f", "t", "l", "ts"⟩,
        [⟨"_a_0".data, "rosbag_a_0".data, 500, false⟩,
         ⟨"_b_1".data, "rosbag_b_1".data, 700, false⟩], [], [], 1200, 2⟩
      (fun spec => if spec.cloud_name = "_a_0".data then .wrote 500 else .wrote 1)
      []).fs = none ∧
    dlookup ("rosbag_a_0".data) (RawDownloadOperation.execute_transfer
      ⟨⟨"c", "r", "f", "t", "l", "ts"⟩,
        [⟨"_a_0".data, "rosbag_a_0".data, 500, false⟩,
         ⟨"_b_1".data, "rosbag_b_1".data, 700, false⟩], [], [], 1200, 2⟩
      (fun spec => if spec.cloud_name = "_a_0".data then .wrote 500 else .wrote 1)
      []).fs = some 500 := by
  have h := C10_partial_failure_isolation
    ⟨⟨"c", "r", "f", "t", "l", "ts"⟩,
      [⟨"_a_0".data, "rosbag_a_0".data, 500, false⟩,
       ⟨"_b_1".data, "rosbag_b_1".data, 700, false⟩], [], [], 1200, 2⟩
    (fun spec => if spec.cloud_name = "_a_0".data then .wrote 500 else .wrote 1)
    []
    [⟨"_a_0".data, "rosbag_a_0".data, 500, false⟩] []
    ⟨"_b_1".data, "rosbag_b_1".data, 700, false⟩ 1
    rfl (by decide) (by decide) (by decide)
    (by intro it hit; fin_cases hit; decide)
    (by intro it hit; cases hit)
  refine ⟨h.1, ?_, h.2.2.2.1, h.2.2.2.2.1, h.2.2.2.2.2.1, ?_⟩
  · exact h.2.1
  · exact h.2.2.2.2.2.2.1 ⟨"_a_0".data, "rosbag_a_0".data, 500, false⟩ (by decide)

end Dashboard
